import Mathlib

/-!
# ScreenRecorder: lifecycle, pipeline step and teardown

A shallow embedding of `src/ScreenRecorder.cpp` / `src/ScreenRecorder.hpp`
(the build without `MULTITHREADED`, which the header leaves commented out).

The recorder talks to FFmpeg and to the Godot host.  Both are outside the
repository, so they are embedded as a scripted `World`: every external call
whose result the recorder branches on takes its result from a finite script
(one script per function) and every external call is appended to a trace.
The recorder's own control flow, its state field, its counters and its handle
fields are translated statement by statement.

Conventions.
* A pointer-returning call is scripted by an integer, `0` meaning `nullptr`.
* A script that has run out answers with the value of a call that goes well;
  for `avcodec_receive_packet` that is `AVERROR(EAGAIN)` (no packet pending),
  so every drain loop of the model ends.  An encoder that hands out packets
  for ever for one frame is therefore not represented.
* `int64_t` counters are unbounded integers; the value `2^63` is out of reach
  of any run.
* The model follows the control flow also where a handle is null or freed; the
  state of the handle a call receives is recorded with the call.
-/

namespace godot

/-- The enumerators of `godot::Error` that the recorder returns. -/
inductive Error
  | OK
  | FAILED
  | ERR_UNAVAILABLE
  | ERR_ALREADY_IN_USE
  deriving DecidableEq, Repr

/-- The values of `godot::Variant::Type` the recorder tests for. -/
inductive VariantType
  | NIL
  | BOOL
  | INT
  | STRING
  | OTHER (tag : Nat)
  deriving DecidableEq, Repr

/-- A `godot::Variant`: the value kinds an options dictionary can hold. -/
inductive Variant
  | NIL
  | BOOL (b : Bool)
  | INT (i : Int)
  | STRING (s : String)
  | OTHER (tag : Nat)
  deriving DecidableEq, Repr

/-- Embedding of `Variant::get_type`. -/
def Variant.get_type : Variant → VariantType
  | .NIL => .NIL
  | .BOOL _ => .BOOL
  | .INT _ => .INT
  | .STRING _ => .STRING
  | .OTHER t => .OTHER t

/-- Conversion `godot::String s = variant` for a variant of type STRING. -/
def Variant.toGodotString : Variant → String
  | .STRING s => s
  | _ => ""

/-- A `godot::Dictionary`, as its entries in iteration order. -/
abbrev Dictionary := List (Variant × Variant)

/-- Embedding of `Dictionary::keys`: the keys in iteration order. -/
def Dictionary.keys (d : Dictionary) : List Variant := d.map Prod.fst

/-- Embedding of `Dictionary::operator[]` on a key: the value stored under it
(`NIL` when there is none). -/
def Dictionary.get (d : Dictionary) (k : Variant) : Variant :=
  match d.find? (fun e => e.1 = k) with
  | some e => e.2
  | none => .NIL

/-- Embedding of `Array::push_back`: append at the end. -/
def Array.push_back {α : Type} (a : List α) (v : α) : List α := a ++ [v]

/-- Embedding of `Array::pop_back`: remove the last element and return it
(nothing on an empty array). -/
def Array.pop_back {α : Type} (a : List α) : Option α × List α := (a.getLast?, a.dropLast)

end godot

namespace ScreenRecorder

open godot

/-- The header's `#define FAILURE (int(godot::Error::FAILED))`. -/
def FAILURE : godot.Error := .FAILED

/-- The header's `#define SUCCESS (int(godot::Error::OK))`. -/
def SUCCESS : godot.Error := .OK

/-- The header's `#define DEFAULT_OUTPUT_CODEC "mpeg"`. -/
def DEFAULT_OUTPUT_CODEC : String := "mpeg"

/-- The errno value `EAGAIN` (Linux). -/
def EAGAIN : Int := 11

/-- FFmpeg's `AVERROR(e)`, the negated errno. -/
def AVERROR (e : Int) : Int := -e

/-- FFmpeg's `AVERROR_EOF`, `-MKTAG('E','O','F',' ')`. -/
def AVERROR_EOF : Int := -(0x45 + 0x4F * 2 ^ 8 + 0x46 * 2 ^ 16 + 0x20 * 2 ^ 24)

/-- FFmpeg's `AV_CODEC_ID_NONE`. -/
def AV_CODEC_ID_NONE : Nat := 0

/-- FFmpeg's `AVFMT_NOFILE`. -/
def AVFMT_NOFILE : Nat := 0x0001

/-- FFmpeg's `AVFMT_GLOBALHEADER`. -/
def AVFMT_GLOBALHEADER : Nat := 0x0040

/-- The enum `ScreenRecorder::State`. -/
inductive State
  | STATE_UNINITIALIZED
  | STATE_FINISHED
  | STATE_STARTED
  | STATE_ERROR
  deriving DecidableEq, Repr

/-- What a handle field of the recorder holds: `nullptr`, a live object, or the
address of an object that has been freed. -/
inductive Ptr
  | null
  | live
  | freed
  deriving DecidableEq, Repr

/-- The handle a pointer-returning call gives back. -/
def Ptr.ofInt (p : Int) : Ptr := if p = 0 then .null else .live

/-- A handle after a `free(p)` that leaves the pointer variable alone. -/
def Ptr.release : Ptr → Ptr
  | .null => .null
  | _ => .freed

/-- The fields of `AVOutputFormat` the recorder reads. -/
structure AVOutputFormat where
  video_codec : Nat
  flags : Nat
  deriving DecidableEq, Repr

/-- The two frame buffers of the recorder. -/
inductive FrameSlot
  | frame
  | tmp_frame
  deriving DecidableEq, Repr

/-- External functions whose result the recorder branches on. -/
inductive Ext
  | avcodec_find_encoder
  | avformat_new_stream
  | avcodec_alloc_context3
  | avcodec_open2
  | av_frame_alloc
  | av_frame_get_buffer
  | avcodec_parameters_from_context
  | avio_open
  | avformat_write_header
  | av_frame_make_writable
  | sws_getContext
  | avcodec_send_frame
  | avcodec_receive_packet
  | av_interleaved_write_frame
  | av_write_trailer
  deriving DecidableEq, Repr

/-- One external call as it is recorded: the function, the arguments of
interest and the result. -/
inductive Call
  | get_data
  | avformat_alloc_output_context2 (format_name : Option String) (oformat : Option AVOutputFormat)
  | av_dict_set (key value : String)
  | avcodec_find_encoder (ret : Int)
  | avformat_new_stream (ret : Int)
  | avcodec_alloc_context3 (ret : Int)
  | avcodec_open2 (ret : Int)
  | av_frame_alloc (ret : Int)
  | av_frame_get_buffer (ret : Int)
  | avcodec_parameters_from_context (ret : Int)
  | av_dump_format
  | avio_open (fmtctx : Ptr) (ret : Int)
  | avformat_write_header (fmtctx : Ptr) (ret : Int)
  | av_frame_make_writable (frame : Ptr) (ret : Int)
  | sws_getContext (ret : Int)
  | sws_scale
  | avcodec_send_frame (codecctx : Ptr) (pts : Int) (ret : Int)
  | avcodec_receive_packet (ret : Int)
  | av_interleaved_write_frame (ret : Int)
  | av_packet_unref
  | av_write_trailer (fmtctx : Ptr) (ret : Int)
  | avcodec_free_context (codecctx : Ptr)
  | av_frame_free (slot : FrameSlot) (p : Ptr)
  | sws_freeContext (swsctx : Ptr)
  | avio_closep (fmtctx : Ptr)
  | avformat_free_context (fmtctx : Ptr)
  deriving DecidableEq, Repr

/-- The result of a call whose script has run out: the call goes well, and the
encoder has no packet pending. -/
def Ext.dflt : Ext → Int
  | .avcodec_receive_packet => AVERROR EAGAIN
  | .avcodec_find_encoder => 1
  | .avformat_new_stream => 1
  | .avcodec_alloc_context3 => 1
  | .av_frame_alloc => 1
  | .sws_getContext => 1
  | _ => 0

/-- The output format resolved once the format script has run out. -/
def default_oformat : AVOutputFormat := { video_codec := 1, flags := 0 }

/-- The libraries and the host: scripted results and the recorded calls. -/
structure World where
  oformats : List (Option AVOutputFormat) := []
  script : Ext → List Int := fun _ => []
  trace : List Call := []

/-- Record a call that returns nothing of interest. -/
def World.log (w : World) (c : Call) : World :=
  { w with trace := w.trace ++ [c] }

/-- The result the next call of `fn` gets. -/
def World.next (w : World) (fn : Ext) : Int := (w.script fn).headD fn.dflt

/-- The world after a call of `fn` recorded as `c`: the result is used up and
the call is on the trace. -/
def World.after (w : World) (fn : Ext) (c : Call) : World :=
  { w with script := Function.update w.script fn (w.script fn).tail,
           trace := w.trace ++ [c] }

/-- Perform a scripted call: take the next result of `fn` and record the call. -/
def World.call (w : World) (fn : Ext) (c : Int → Call) : Int × World :=
  (w.next fn, w.after fn (c (w.next fn)))

/-- The format the next `avformat_alloc_output_context2` resolves, if any. -/
def World.next_oformat (w : World) : Option AVOutputFormat :=
  w.oformats.headD (some default_oformat)

/-- The world after a call of `avformat_alloc_output_context2`. -/
def World.after_resolve (w : World) (format_name : Option String) : World :=
  { w with oformats := w.oformats.tail,
           trace := w.trace ++ [.avformat_alloc_output_context2 format_name w.next_oformat] }

/-- Perform `avformat_alloc_output_context2`: the format it resolves, if any. -/
def World.alloc_output (w : World) (format_name : Option String) :
    Option AVOutputFormat × World :=
  (w.next_oformat, w.after_resolve format_name)

end ScreenRecorder

/-- The fields of `class ScreenRecorder` that the lifecycle reads or writes,
with the initial values of the header.  A handle field holds the state of the
object it points to; `frame_pts` is `frame->pts`; `frame_buffer` exists in the
threaded build only, its images are told apart by a number. -/
structure ScreenRecorder where
  recorder_state : ScreenRecorder.State := .STATE_UNINITIALIZED
  options : godot.Dictionary := []
  codec : ScreenRecorder.Ptr := .null
  fmtctx : ScreenRecorder.Ptr := .null
  fmt : Option ScreenRecorder.AVOutputFormat := none
  frame : ScreenRecorder.Ptr := .null
  tmp_frame : ScreenRecorder.Ptr := .null
  st : ScreenRecorder.Ptr := .null
  codecctx : ScreenRecorder.Ptr := .null
  swsctx : ScreenRecorder.Ptr := .null
  frame_pts : Int := 0
  next_pts : Int := 0
  received_frame_count : Int := 0
  frame_buffer : List Nat := []

namespace ScreenRecorder

open godot

/-- The test `fmt->flags & flag` of the source.  Reading through a null `fmt`
is undefined in C++; the model reads it as no flag set. -/
def fmt_has_flag (fmt : Option AVOutputFormat) (flag : Nat) : Bool :=
  match fmt with
  | some f => f.flags &&& flag != 0
  | none => false

/-- Embedding of the static `alloc_frame`. -/
def alloc_frame (w : World) : Ptr × World :=
  let (p, w) := w.call .av_frame_alloc .av_frame_alloc
  if p = 0 then (.null, w)
  else
    let (ret, w) := w.call .av_frame_get_buffer .av_frame_get_buffer
    if ret < 0 then (.null, w) else (.live, w)

/-- The options loop of `initialize` over `keys`, lines 101-115. -/
def set_options (options : Dictionary) : List Variant → World → World
  | [], w => w
  | k :: keys, w =>
    if k.get_type ≠ .STRING then set_options options keys w
    else
      let keystr := k.toGodotString
      if (Dictionary.get options k).get_type ≠ .STRING then set_options options keys w
      else
        let value := (Dictionary.get options k).toGodotString
        set_options options keys (w.log (.av_dict_set keystr value))

/-- Embedding of `ScreenRecorder::initialize` (the bare name is a keyword of
Lean).  The function has no guard on `recorder_state`. -/
def initialize_recorder (r : ScreenRecorder) (w : World) :
    godot.Error × ScreenRecorder × World :=
  let w := w.log .get_data
  let (o1, w) := w.alloc_output none
  let (o, w) :=
    match o1 with
    | some f => (some f, w)
    | none => w.alloc_output (some DEFAULT_OUTPUT_CODEC)
  match o with
  | none => (FAILURE, { r with fmtctx := .null }, w)
  | some f =>
    let r := { r with fmtctx := .live, fmt := some f }
    if f.video_codec = AV_CODEC_ID_NONE then (FAILURE, r, w)
    else
      let w := set_options r.options (Dictionary.keys r.options) w
      let (p, w) := w.call .avcodec_find_encoder .avcodec_find_encoder
      let r := { r with codec := Ptr.ofInt p }
      if p = 0 then (FAILURE, r, w)
      else
        let (p, w) := w.call .avformat_new_stream .avformat_new_stream
        let r := { r with st := Ptr.ofInt p }
        if p = 0 then (FAILURE, r, w)
        else
          let (p, w) := w.call .avcodec_alloc_context3 .avcodec_alloc_context3
          let r := { r with codecctx := Ptr.ofInt p }
          if p = 0 then (FAILURE, r, w)
          else
            let (ret, w) := w.call .avcodec_open2 .avcodec_open2
            if ret < 0 then (FAILURE, r, w)
            else
              let (tmp, w) := alloc_frame w
              let (frm, w) := alloc_frame w
              let r := { r with tmp_frame := tmp, frame := frm }
              let (ret, w) := w.call .avcodec_parameters_from_context
                                .avcodec_parameters_from_context
              if ret < 0 then (FAILURE, r, w)
              else
                let w := w.log .av_dump_format
                (SUCCESS, { r with recorder_state := .STATE_FINISHED }, w)

/-- Embedding of `ScreenRecorder::start_recorder`.  The test of the result of
`avio_open` sits inside the `if` of the source; with `AVFMT_NOFILE` set no
sink is opened and the header write follows at once. -/
def start_recorder (r : ScreenRecorder) (w : World) :
    godot.Error × ScreenRecorder × World :=
  if r.recorder_state ≠ .STATE_FINISHED then (.ERR_ALREADY_IN_USE, r, w)
  else
    let (ret, w) :=
      if !(fmt_has_flag r.fmt AVFMT_NOFILE) then w.call .avio_open (.avio_open r.fmtctx)
      else (0, w)
    if ret < 0 then (FAILURE, r, w)
    else
      let (ret, w) := w.call .avformat_write_header (.avformat_write_header r.fmtctx)
      if ret < 0 then (FAILURE, r, w)
      else (SUCCESS, { r with recorder_state := .STATE_STARTED }, w)

/-- Embedding of `ScreenRecorder::prepare_frame` (synchronous build): one
capture of the viewport. -/
def prepare_frame (w : World) : World := w.log .get_data

/-- Embedding of `ScreenRecorder::get_video_frame`. -/
def get_video_frame (r : ScreenRecorder) (w : World) : Int × ScreenRecorder × World :=
  let (ret, w) := w.call .av_frame_make_writable (.av_frame_make_writable r.frame)
  if ret < 0 then (-1, r, w)
  else
    let (ok, r, w) :=
      if r.swsctx = .null then
        let (p, w) := w.call .sws_getContext .sws_getContext
        (decide (p ≠ 0), { r with swsctx := Ptr.ofInt p }, w)
      else (true, r, w)
    if !ok then (-1, r, w)
    else
      let w := prepare_frame w
      let w := w.log .sws_scale
      let r := { r with frame_pts := r.next_pts }
      let r := { r with next_pts := r.next_pts + 1 }
      (0, r, w)

/-- Embedding of the static `write_frame`: hand one packet to the muxer. -/
def write_frame (w : World) : Int × World :=
  w.call .av_interleaved_write_frame .av_interleaved_write_frame

/-- The drain loop of `write_video_frame`, lines 393-416, run over the pending
results of `avcodec_receive_packet`. -/
def drain (r : ScreenRecorder) (w : World) : List Int → Int × ScreenRecorder × World
  | [] =>
    (AVERROR EAGAIN, r,
      { w with script := Function.update w.script .avcodec_receive_packet [],
               trace := w.trace ++ [.avcodec_receive_packet (AVERROR EAGAIN)] })
  | ret :: rest =>
    let w := { w with script := Function.update w.script .avcodec_receive_packet rest,
                      trace := w.trace ++ [.avcodec_receive_packet ret] }
    if ret = AVERROR EAGAIN ∨ ret = AVERROR_EOF then (ret, r, w)
    else if ret < 0 then (ret, r, w)
    else
      let (ret, w) := write_frame w
      let r := { r with received_frame_count := r.received_frame_count + 1 }
      if ret < 0 then (ret, r, w)
      else drain r (w.log .av_packet_unref) rest

/-- Embedding of `ScreenRecorder::write_video_frame`. -/
def write_video_frame (r : ScreenRecorder) (w : World) : Int × ScreenRecorder × World :=
  let (ret, r, w) := get_video_frame r w
  if ret < 0 then (-1, r, w)
  else
    let (ret, w) := w.call .avcodec_send_frame (.avcodec_send_frame r.codecctx r.frame_pts)
    if ret < 0 then (ret, r, w)
    else drain r w (w.script .avcodec_receive_packet)

/-- Embedding of `ScreenRecorder::recorder_step`. -/
def recorder_step (r : ScreenRecorder) (w : World) : godot.Error × ScreenRecorder × World :=
  if r.recorder_state ≠ .STATE_STARTED then (.ERR_UNAVAILABLE, r, w)
  else
    let (ret, r, w) := write_video_frame r w
    if ret ≠ AVERROR EAGAIN ∧ ret ≠ AVERROR_EOF then
      (FAILURE, { r with recorder_state := .STATE_ERROR }, w)
    else (SUCCESS, r, w)

/-- Embedding of `ScreenRecorder::stop_recorder`. -/
def stop_recorder (r : ScreenRecorder) (w : World) : godot.Error × ScreenRecorder × World :=
  if r.recorder_state = .STATE_FINISHED then (.ERR_UNAVAILABLE, r, w)
  else
    let r := { r with recorder_state := .STATE_FINISHED }
    let (ret, w) := w.call .av_write_trailer (.av_write_trailer r.fmtctx)
    if ret < 0 then (FAILURE, r, w)
    else
      let w := w.log (.avcodec_free_context r.codecctx)
      let r := { r with codecctx := .null }
      let w := w.log (.av_frame_free .frame r.frame)
      let r := { r with frame := .null }
      let w := w.log (.av_frame_free .tmp_frame r.tmp_frame)
      let r := { r with tmp_frame := .null }
      let w := w.log (.sws_freeContext r.swsctx)
      let r := { r with swsctx := r.swsctx.release }
      let w := if !(fmt_has_flag r.fmt AVFMT_NOFILE) then w.log (.avio_closep r.fmtctx) else w
      let w := w.log (.avformat_free_context r.fmtctx)
      let r := { r with fmtctx := r.fmtctx.release }
      (SUCCESS, r, w)

/-- Embedding of `ScreenRecorder::is_started`. -/
def is_started (r : ScreenRecorder) : Bool := r.recorder_state = .STATE_STARTED

/-- Embedding of `ScreenRecorder::get_received_frame_count`. -/
def get_received_frame_count (r : ScreenRecorder) : Int := r.received_frame_count

/-- The queue part of `ScreenRecorder::push_frame` (threaded build): the
captured image `v` goes into `frame_buffer` with `push_back`. -/
def push_frame (r : ScreenRecorder) (v : Nat) : ScreenRecorder :=
  { r with frame_buffer := Array.push_back r.frame_buffer v }

/-- The queue part of `ScreenRecorder::prepare_frame` (threaded build): the
image to encode is taken from `frame_buffer` with `pop_back`. -/
def prepare_frame_threaded (r : ScreenRecorder) : Option Nat × ScreenRecorder :=
  let (v, rest) := Array.pop_back r.frame_buffer
  (v, { r with frame_buffer := rest })

/-- A run of `n` successive `recorder_step` calls. -/
def steps : Nat → ScreenRecorder → World → ScreenRecorder × World
  | 0, r, w => (r, w)
  | n + 1, r, w =>
    let (_, r, w) := recorder_step r w
    steps n r w

/-- A recorder taken through `initialize` and `start_recorder` against the
world `w`, from the field values of a new instance. -/
def started (w : World) : ScreenRecorder × World :=
  let (_, r, w) := initialize_recorder {} w
  let (_, r, w) := start_recorder r w
  (r, w)

/-- A world in which `avcodec_send_frame` answers `AVERROR(EAGAIN)` once. -/
def world_send_eagain : World :=
  { script := fun fn => match fn with
      | .avcodec_send_frame => [AVERROR EAGAIN]
      | _ => [] }

/-- A world in which the encoder emits one packet and the muxer write of it
answers `AVERROR(EAGAIN)`. -/
def world_write_eagain : World :=
  { script := fun fn => match fn with
      | .avcodec_receive_packet => [0]
      | .av_interleaved_write_frame => [AVERROR EAGAIN]
      | _ => [] }

/-- A world in which `avcodec_find_encoder` finds no encoder. -/
def world_no_encoder : World :=
  { script := fun fn => match fn with
      | .avcodec_find_encoder => [0]
      | _ => [] }

/-- A world in which `av_write_trailer` fails once. -/
def world_trailer_fails : World :=
  { script := fun fn => match fn with
      | .av_write_trailer => [-1]
      | _ => [] }

/-- The state-error codes of the recorder: the two `godot::Error` values the
guards return. -/
def is_state_error (e : godot.Error) : Bool :=
  e = .ERR_UNAVAILABLE || e = .ERR_ALREADY_IN_USE

/-- The timestamp of an encoder submission. -/
def submitted_pts : Call → Option Int
  | .avcodec_send_frame _ pts _ => some pts
  | _ => none

/-- A call of `avcodec_receive_packet` that returned a packet. -/
def is_emitted : Call → Bool
  | .avcodec_receive_packet ret => decide (0 ≤ ret)
  | _ => false

/-- A muxer write that did not fail. -/
def is_written : Call → Bool
  | .av_interleaved_write_frame ret => decide (0 ≤ ret)
  | _ => false

/-- A muxer write that failed. -/
def is_failed_write : Call → Bool
  | .av_interleaved_write_frame ret => decide (ret < 0)
  | _ => false

/-- The presentation timestamps handed to `avcodec_send_frame`, in call order. -/
def sent_pts (t : List Call) : List Int :=
  t.filterMap submitted_pts

/-- The number of packets the encoder emitted: the `avcodec_receive_packet`
calls that returned a packet (a result that is not negative). -/
def emitted_packets (t : List Call) : Nat := t.countP is_emitted

/-- The number of packets written to the muxer: the `write_frame` calls that
did not fail. -/
def written_packets (t : List Call) : Nat := t.countP is_written

/-- The number of packets whose muxer write failed. -/
def failed_writes (t : List Call) : Nat := t.countP is_failed_write

/-- The calls a round trip is observed by: header write, encoder submission
(with its timestamp) and trailer write. -/
inductive Mark
  | header
  | submission (pts : Int)
  | trailer
  deriving DecidableEq, Repr

/-- The mark of a call, when it is one of the three observed kinds. -/
def mark_of : Call → Option Mark
  | .avformat_write_header _ _ => some .header
  | .avcodec_send_frame _ pts _ => some (.submission pts)
  | .av_write_trailer _ _ => some .trailer
  | _ => none

/-- The header writes, encoder submissions and trailer writes of a trace, in
call order. -/
def lifecycle_marks (t : List Call) : List Mark := t.filterMap mark_of

/-- The option entry of an `av_dict_set` call. -/
def option_of : Call → Option (String × String)
  | .av_dict_set k v => some (k, v)
  | _ => none

/-- The option entries handed to `av_dict_set`, in call order. -/
def forwarded_options (t : List Call) : List (String × String) := t.filterMap option_of

/-- The calls of the drain loop. -/
def drain_call : Call → Bool
  | .avcodec_receive_packet _ => true
  | .av_interleaved_write_frame _ => true
  | .av_packet_unref => true
  | _ => false

/-- The calls `get_video_frame` makes. -/
def capture_call : Call → Bool
  | .av_frame_make_writable _ _ => true
  | .sws_getContext _ => true
  | .get_data => true
  | .sws_scale => true
  | _ => false

/-- The calls `initialize` makes. -/
def setup_call : Call → Bool
  | .get_data => true
  | .avformat_alloc_output_context2 _ _ => true
  | .av_dict_set _ _ => true
  | .avcodec_find_encoder _ => true
  | .avformat_new_stream _ => true
  | .avcodec_alloc_context3 _ => true
  | .avcodec_open2 _ => true
  | .av_frame_alloc _ => true
  | .av_frame_get_buffer _ => true
  | .avcodec_parameters_from_context _ => true
  | .av_dump_format => true
  | _ => false

/-- The calls `start_recorder` makes. -/
def start_call : Call → Bool
  | .avio_open _ _ => true
  | .avformat_write_header _ _ => true
  | _ => false

/-- A scripted result with which the call does not fail: a pointer that is not
null, a return code that is not negative and, for `avcodec_receive_packet`,
also the two codes that end a drain, `AVERROR(EAGAIN)` and `AVERROR_EOF`. -/
def ok_result : Ext → Int → Bool
  | .avcodec_receive_packet, x => decide (0 ≤ x) || decide (x = AVERROR EAGAIN) ||
      decide (x = AVERROR_EOF)
  | .avcodec_find_encoder, x => decide (x ≠ 0)
  | .avformat_new_stream, x => decide (x ≠ 0)
  | .avcodec_alloc_context3, x => decide (x ≠ 0)
  | .av_frame_alloc, x => decide (x ≠ 0)
  | .sws_getContext, x => decide (x ≠ 0)
  | _, x => decide (0 ≤ x)

/-- Stubs that never fail: every scripted result is one with which the call
does not fail, and every scripted format resolution yields a format that has a
video codec. -/
def never_fails (w : World) : Prop :=
  (∀ fn, ∀ x ∈ w.script fn, ok_result fn x = true) ∧
  ∀ o ∈ w.oformats, ∃ f, o = some f ∧ f.video_codec ≠ AV_CODEC_ID_NONE

/-- The round trip `initialize`, `start_recorder`, `n` steps, `stop_recorder`
on a new instance. -/
def round_trip (w : World) (n : Nat) : ScreenRecorder × World :=
  let (_, r, w) := stop_recorder (steps n (started w).1 (started w).2).1
    (steps n (started w).1 (started w).2).2
  (r, w)

/-- A dictionary entry as an option, when its key and its value are both
strings. -/
def string_entry : Variant × Variant → Option (String × String)
  | (.STRING k, .STRING v) => some (k, v)
  | _ => none

/-- The entries of an options dictionary whose key and value are both
strings, in the order of the dictionary. -/
def string_entries (d : Dictionary) : List (String × String) := d.filterMap string_entry

/-- What one call of the pipeline may do, from `(r, w)` to `(r', w')`: the trace
grows by calls `evs`, the scripts only get shorter, `received_frame_count`
grows by the packets emitted in `evs`, each of them handed to the muxer once,
and either nothing is submitted and `next_pts` stays, or exactly one frame is
submitted, stamped `next_pts`, and `next_pts` moves on by one. -/
def step_effect (r : ScreenRecorder) (w : World) (r' : ScreenRecorder) (w' : World) : Prop :=
  ∃ evs : List Call,
    w'.trace = w.trace ++ evs ∧
    w'.oformats = w.oformats ∧
    (∀ fn, w'.script fn <:+ w.script fn) ∧
    r'.received_frame_count = r.received_frame_count + emitted_packets evs ∧
    emitted_packets evs = written_packets evs + failed_writes evs ∧
    ((sent_pts evs = [] ∧ lifecycle_marks evs = [] ∧ r'.next_pts = r.next_pts) ∨
     (sent_pts evs = [r.next_pts] ∧ lifecycle_marks evs = [.submission r.next_pts] ∧
       r'.next_pts = r.next_pts + 1))

/-- The world `v` comes from `w` by external calls of kind `K` only: the trace
grows by such calls and the scripts only get shorter. -/
def adds (K : Call → Bool) (w v : World) : Prop :=
  ∃ evs : List Call,
    v.trace = w.trace ++ evs ∧ (∀ c ∈ evs, K c = true) ∧
    v.oformats <:+ w.oformats ∧ ∀ fn, v.script fn <:+ w.script fn

/-- Lines 64-90 of `initialize` on their own, to reason about `initialize` in
parts: the capture of the viewport and the resolution of the container
format. -/
def initialize_format (w : World) : Option AVOutputFormat × World :=
  let w := w.log .get_data
  let (o1, w) := w.alloc_output none
  match o1 with
  | some f => (some f, w)
  | none => w.alloc_output (some DEFAULT_OUTPUT_CODEC)

/-- Lines 186-206 of `initialize` on their own: the two frame buffers, the
stream parameters and the move to Finished. -/
def initialize_frames (r : ScreenRecorder) (w : World) :
    godot.Error × ScreenRecorder × World :=
  let (tmp, w) := alloc_frame w
  let (frm, w) := alloc_frame w
  let r := { r with tmp_frame := tmp, frame := frm }
  let (ret, w) := w.call .avcodec_parameters_from_context .avcodec_parameters_from_context
  if ret < 0 then (FAILURE, r, w)
  else
    let w := w.log .av_dump_format
    (SUCCESS, { r with recorder_state := .STATE_FINISHED }, w)

/-- Lines 99-184 of `initialize` on their own, followed by
`initialize_frames`: the options loop, the encoder, the stream and the codec
context. -/
def initialize_codec (r : ScreenRecorder) (w : World) :
    godot.Error × ScreenRecorder × World :=
  let w := set_options r.options (Dictionary.keys r.options) w
  let (p, w) := w.call .avcodec_find_encoder .avcodec_find_encoder
  let r := { r with codec := Ptr.ofInt p }
  if p = 0 then (FAILURE, r, w)
  else
    let (p, w) := w.call .avformat_new_stream .avformat_new_stream
    let r := { r with st := Ptr.ofInt p }
    if p = 0 then (FAILURE, r, w)
    else
      let (p, w) := w.call .avcodec_alloc_context3 .avcodec_alloc_context3
      let r := { r with codecctx := Ptr.ofInt p }
      if p = 0 then (FAILURE, r, w)
      else
        let (ret, w) := w.call .avcodec_open2 .avcodec_open2
        if ret < 0 then (FAILURE, r, w)
        else initialize_frames r w

/-- A world in which the encoder emits one packet and the muxer write of it
fails. -/
def world_write_fails : World :=
  { script := fun fn => match fn with
      | .avcodec_receive_packet => [0]
      | .av_interleaved_write_frame => [-1]
      | _ => [] }

/-- The options dictionary `{"preset": "fast", "threads": 4}`. -/
def options_preset_threads : Dictionary :=
  [(.STRING "preset", .STRING "fast"), (.STRING "threads", .INT 4)]

/-- A world whose encoder emits one packet for the first frame and whose other
calls all go well. -/
def world_one_packet : World :=
  { script := fun fn => match fn with
      | .avcodec_receive_packet => [0, AVERROR EAGAIN]
      | _ => [] }

/-- A world in which the first `av_frame_alloc` returns null. -/
def world_frame_alloc_fails : World :=
  { script := fun fn => match fn with
      | .av_frame_alloc => [0]
      | _ => [] }

/-- A world in which the first frame buffer is allocated and
`av_frame_get_buffer` fails for the second one. -/
def world_frame_buffer_fails : World :=
  { script := fun fn => match fn with
      | .av_frame_get_buffer => [0, -1]
      | _ => [] }

/-- A new instance taken through `initialize`, `start_recorder` and
`stop_recorder` against the world `w`. -/
def stopped (w : World) : ScreenRecorder × World :=
  let (_, r, w) := stop_recorder (started w).1 (started w).2
  (r, w)

/-- The calls of `initialize` whose result the function tests, with a result
that lets it go on; the calls it does not test count with any result. -/
def checked_ok : Call → Bool
  | .get_data => true
  | .avformat_alloc_output_context2 _ _ => true
  | .av_dict_set _ _ => true
  | .avcodec_find_encoder ret => decide (ret ≠ 0)
  | .avformat_new_stream ret => decide (ret ≠ 0)
  | .avcodec_alloc_context3 ret => decide (ret ≠ 0)
  | .avcodec_open2 ret => decide (0 ≤ ret)
  | .av_frame_alloc _ => true
  | .av_frame_get_buffer _ => true
  | .avcodec_parameters_from_context ret => decide (0 ≤ ret)
  | .av_dump_format => true
  | _ => false

end ScreenRecorder

/-! ## Lemmas -/

namespace ScreenRecorder

open godot

theorem AVERROR_EAGAIN_eq : AVERROR EAGAIN = -11 := by decide

theorem AVERROR_EOF_eq : AVERROR_EOF = -541478725 := by decide

theorem sent_pts_append (a b : List Call) : sent_pts (a ++ b) = sent_pts a ++ sent_pts b := by
  simp [sent_pts]

theorem lifecycle_marks_append (a b : List Call) :
    lifecycle_marks (a ++ b) = lifecycle_marks a ++ lifecycle_marks b := by
  simp [lifecycle_marks]

theorem forwarded_options_append (a b : List Call) :
    forwarded_options (a ++ b) = forwarded_options a ++ forwarded_options b := by
  simp [forwarded_options]

theorem emitted_packets_append (a b : List Call) :
    emitted_packets (a ++ b) = emitted_packets a + emitted_packets b := by
  simp [emitted_packets]

theorem written_packets_append (a b : List Call) :
    written_packets (a ++ b) = written_packets a + written_packets b := by
  simp [written_packets]

theorem failed_writes_append (a b : List Call) :
    failed_writes (a ++ b) = failed_writes a + failed_writes b := by
  simp [failed_writes]

/-- The next result of a function is not touched by a call of another one. -/
theorem next_update_ne (sc : Ext → List Int) (a b : Ext) (v : List Int)
    (o : List (Option AVOutputFormat)) (t : List Call) (h : b ≠ a) :
    World.next { oformats := o, script := Function.update sc a v, trace := t } b
      = World.next { oformats := o, script := sc, trace := [] } b := by
  simp [World.next, Function.update, h]

/-- The next result does not depend on the formats or on the trace. -/
theorem next_congr (w : World) (o : List (Option AVOutputFormat)) (t : List Call) (b : Ext) :
    World.next { oformats := o, script := w.script, trace := t } b = w.next b := rfl

/-- One more round of the drain loop: a packet was received and written. -/
theorem drain_cons_written (r : ScreenRecorder) (w : World) (ret : Int) (rest : List Int)
    (h1 : ¬ (ret = AVERROR EAGAIN ∨ ret = AVERROR_EOF)) (h2 : ¬ ret < 0)
    (h3 : ¬ w.next .av_interleaved_write_frame < 0) :
    drain r w (ret :: rest) =
      drain { r with received_frame_count := r.received_frame_count + 1 }
        { oformats := w.oformats,
          script := Function.update (Function.update w.script .avcodec_receive_packet rest)
            .av_interleaved_write_frame (w.script .av_interleaved_write_frame).tail,
          trace := w.trace ++ [.avcodec_receive_packet ret,
            .av_interleaved_write_frame (w.next .av_interleaved_write_frame),
            .av_packet_unref] } rest := by
  have hn : World.next (World.mk w.oformats
      (Function.update w.script .avcodec_receive_packet rest)
      (w.trace ++ [.avcodec_receive_packet ret])) Ext.av_interleaved_write_frame
      = w.next .av_interleaved_write_frame := by
    rw [next_update_ne _ _ _ _ _ _ (by decide)]; rfl
  rw [drain]
  simp only [h1, h2, if_false, write_frame, World.call, World.after, hn, h3, World.log]
  simp [Function.update]

/-- The drain loop stops on a failed muxer write. -/
theorem drain_cons_write_failed (r : ScreenRecorder) (w : World) (ret : Int) (rest : List Int)
    (h1 : ¬ (ret = AVERROR EAGAIN ∨ ret = AVERROR_EOF)) (h2 : ¬ ret < 0)
    (h3 : w.next .av_interleaved_write_frame < 0) :
    drain r w (ret :: rest) =
      (w.next .av_interleaved_write_frame,
        { r with received_frame_count := r.received_frame_count + 1 },
        { oformats := w.oformats,
          script := Function.update (Function.update w.script .avcodec_receive_packet rest)
            .av_interleaved_write_frame (w.script .av_interleaved_write_frame).tail,
          trace := w.trace ++ [.avcodec_receive_packet ret,
            .av_interleaved_write_frame (w.next .av_interleaved_write_frame)] }) := by
  have hn : World.next (World.mk w.oformats
      (Function.update w.script .avcodec_receive_packet rest)
      (w.trace ++ [.avcodec_receive_packet ret])) Ext.av_interleaved_write_frame
      = w.next .av_interleaved_write_frame := by
    rw [next_update_ne _ _ _ _ _ _ (by decide)]; rfl
  rw [drain]
  simp only [h1, h2, if_false, write_frame, World.call, World.after, hn, h3, World.log]
  simp [Function.update]

/-- The drain loop stops when no packet is returned. -/
theorem drain_cons_stop (r : ScreenRecorder) (w : World) (ret : Int) (rest : List Int)
    (h : (ret = AVERROR EAGAIN ∨ ret = AVERROR_EOF) ∨ ret < 0) :
    drain r w (ret :: rest) =
      (ret, r,
        { oformats := w.oformats,
          script := Function.update w.script .avcodec_receive_packet rest,
          trace := w.trace ++ [.avcodec_receive_packet ret] }) := by
  rw [drain]
  rcases h with h | h
  · simp only [h, if_true]
  · by_cases h1 : ret = AVERROR EAGAIN ∨ ret = AVERROR_EOF
    · simp only [h1, if_true]
    · simp only [h1, h, if_true, if_false]

theorem emitted_packets_cons (c : Call) (t : List Call) :
    emitted_packets (c :: t) = emitted_packets t + (if is_emitted c then 1 else 0) := by
  simp [emitted_packets, List.countP_cons]

theorem written_packets_cons (c : Call) (t : List Call) :
    written_packets (c :: t) = written_packets t + (if is_written c then 1 else 0) := by
  simp [written_packets, List.countP_cons]

theorem failed_writes_cons (c : Call) (t : List Call) :
    failed_writes (c :: t) = failed_writes t + (if is_failed_write c then 1 else 0) := by
  simp [failed_writes, List.countP_cons]

theorem emitted_packets_nil : emitted_packets [] = 0 := rfl

theorem written_packets_nil : written_packets [] = 0 := rfl

theorem failed_writes_nil : failed_writes [] = 0 := rfl

/-- A recorder is not changed by adding nothing to its packet counter. -/
theorem recorder_add_zero (r : ScreenRecorder) :
    { r with received_frame_count := r.received_frame_count + ((0 : Nat) : Int) } = r := by
  cases r
  simp

/-- The drain loop: the calls it adds are drain calls, it changes the recorder
only by adding the number of emitted packets to `received_frame_count`, every
emitted packet of the loop was handed to the muxer exactly once, and the
scripts only get shorter. -/
theorem drain_spec (l : List Int) : ∀ (r : ScreenRecorder) (w : World),
    ∃ evs : List Call,
      (drain r w l).2.2.trace = w.trace ++ evs ∧
      (∀ c ∈ evs, drain_call c = true) ∧
      (drain r w l).2.1 =
        { r with received_frame_count := r.received_frame_count + emitted_packets evs } ∧
      emitted_packets evs = written_packets evs + failed_writes evs ∧
      (drain r w l).2.2.oformats = w.oformats ∧
      (drain r w l).2.2.script .avcodec_receive_packet <:+ l ∧
      ∀ fn, fn ≠ .avcodec_receive_packet → (drain r w l).2.2.script fn <:+ w.script fn := by
  induction l with
  | nil =>
    intro r w
    refine ⟨[.avcodec_receive_packet (AVERROR EAGAIN)], ?_⟩
    have h0 : emitted_packets [Call.avcodec_receive_packet (AVERROR EAGAIN)] = 0 := by decide
    refine ⟨rfl, ?_, ?_, by decide, rfl, ?_, ?_⟩
    · intro c hc
      rw [List.mem_singleton.mp hc]; rfl
    · rw [h0, recorder_add_zero]; rfl
    · simp [drain]
    · intro fn hfn
      simp [drain, Function.update, hfn]
  | cons ret rest ih =>
    intro r w
    by_cases h : (ret = AVERROR EAGAIN ∨ ret = AVERROR_EOF) ∨ ret < 0
    · have hneg : ¬ (0 ≤ ret) := by
        rcases h with (h | h) | h
        · rw [h]; decide
        · rw [h]; decide
        · exact not_le.mpr h
      have h0 : emitted_packets [Call.avcodec_receive_packet ret] = 0 := by
        simp [emitted_packets, is_emitted, hneg]
      rw [drain_cons_stop r w ret rest h]
      refine ⟨[.avcodec_receive_packet ret], rfl, ?_, ?_, ?_, rfl, ?_, ?_⟩
      · intro c hc
        rw [List.mem_singleton.mp hc]; rfl
      · rw [h0, recorder_add_zero]
      · rw [h0]; rfl
      · simp
      · intro fn hfn
        simp [Function.update, hfn]
    · have h1 : ¬ (ret = AVERROR EAGAIN ∨ ret = AVERROR_EOF) := fun h' => h (Or.inl h')
      have h2 : ¬ ret < 0 := fun h' => h (Or.inr h')
      have hpos : 0 ≤ ret := not_lt.mp h2
      by_cases h3 : w.next .av_interleaved_write_frame < 0
      · rw [drain_cons_write_failed r w ret rest h1 h2 h3]
        refine ⟨[.avcodec_receive_packet ret,
          .av_interleaved_write_frame (w.next .av_interleaved_write_frame)],
          rfl, ?_, ?_, ?_, rfl, ?_, ?_⟩
        · intro c hc
          simp only [List.mem_cons, List.mem_singleton, List.not_mem_nil, or_false] at hc
          rcases hc with hc | hc <;> rw [hc] <;> rfl
        · simp [emitted_packets_cons, emitted_packets_nil, is_emitted, hpos]
        · simp [emitted_packets_cons, emitted_packets_nil, is_emitted, hpos,
            written_packets_cons, written_packets_nil, is_written,
            failed_writes_cons, failed_writes_nil, is_failed_write, h3]
        · simp [Function.update]
        · intro fn hfn
          by_cases hw : fn = .av_interleaved_write_frame
          · subst hw
            simp [Function.update, List.tail_suffix]
          · simp [Function.update, hfn, hw]
      · rw [drain_cons_written r w ret rest h1 h2 h3]
        have hw : 0 ≤ w.next .av_interleaved_write_frame := not_lt.mp h3
        obtain ⟨evs, he1, he2, he3, he4, he5, he6, he7⟩ :=
          ih { r with received_frame_count := r.received_frame_count + 1 }
            { oformats := w.oformats,
              script := Function.update (Function.update w.script .avcodec_receive_packet rest)
                .av_interleaved_write_frame (w.script .av_interleaved_write_frame).tail,
              trace := w.trace ++ [.avcodec_receive_packet ret,
                .av_interleaved_write_frame (w.next .av_interleaved_write_frame),
                .av_packet_unref] }
        refine ⟨[.avcodec_receive_packet ret,
          .av_interleaved_write_frame (w.next .av_interleaved_write_frame),
          .av_packet_unref] ++ evs, ?_, ?_, ?_, ?_, ?_, ?_, ?_⟩
        · rw [he1]; simp
        · intro c hc
          simp only [List.mem_append, List.mem_cons, List.mem_singleton, List.not_mem_nil,
            or_false] at hc
          rcases hc with (hc | hc | hc) | hc
          · rw [hc]; rfl
          · rw [hc]; rfl
          · rw [hc]; rfl
          · exact he2 c hc
        · rw [he3]
          simp [emitted_packets_append, emitted_packets_cons, emitted_packets_nil, is_emitted,
            hpos]
          ring
        · simp [emitted_packets_append, emitted_packets_cons, emitted_packets_nil, is_emitted,
            hpos, written_packets_append, written_packets_cons, written_packets_nil, is_written,
            failed_writes_append, failed_writes_cons, failed_writes_nil, is_failed_write, h3, hw,
            he4]
          ring
        · rw [he5]
        · exact he6.trans (List.suffix_cons ret rest)
        · intro fn hfn
          refine (he7 fn hfn).trans ?_
          by_cases hw : fn = .av_interleaved_write_frame
          · subst hw
            simp [Function.update, List.tail_suffix]
          · simp [Function.update, hfn, hw]

theorem call_fst (w : World) (fn : Ext) (c : Int → Call) : (w.call fn c).1 = w.next fn := rfl

theorem call_snd (w : World) (fn : Ext) (c : Int → Call) :
    (w.call fn c).2 = w.after fn (c (w.next fn)) := rfl

theorem trace_after (w : World) (fn : Ext) (c : Call) :
    (w.after fn c).trace = w.trace ++ [c] := rfl

theorem trace_log (w : World) (c : Call) : (w.log c).trace = w.trace ++ [c] := rfl

theorem script_log (w : World) (c : Call) : (w.log c).script = w.script := rfl

theorem oformats_log (w : World) (c : Call) : (w.log c).oformats = w.oformats := rfl

theorem oformats_after (w : World) (fn : Ext) (c : Call) :
    (w.after fn c).oformats = w.oformats := rfl

theorem script_after_suffix (w : World) (fn : Ext) (c : Call) (g : Ext) :
    (w.after fn c).script g <:+ w.script g := by
  by_cases h : g = fn
  · subst h
    simp [World.after, List.tail_suffix]
  · simp [World.after, Function.update, h]

theorem next_log (w : World) (c : Call) (g : Ext) : (w.log c).next g = w.next g := rfl

theorem next_after_ne (w : World) (fn : Ext) (c : Call) (g : Ext) (h : g ≠ fn) :
    (w.after fn c).next g = w.next g := by
  simp [World.next, World.after, Function.update, h]

/-- What `get_video_frame` does: it adds capture calls only, leaves every
field but `swsctx`, `frame_pts` and `next_pts` alone, and either fails with -1
and keeps `next_pts`, or returns 0, stamps the frame with `next_pts` and moves
`next_pts` on by one. -/
theorem get_video_frame_spec (r : ScreenRecorder) (w : World) :
    ∃ evs : List Call,
      (get_video_frame r w).2.2.trace = w.trace ++ evs ∧
      (∀ c ∈ evs, capture_call c = true) ∧
      (get_video_frame r w).2.2.oformats = w.oformats ∧
      (∀ fn, (get_video_frame r w).2.2.script fn <:+ w.script fn) ∧
      (get_video_frame r w).2.1.recorder_state = r.recorder_state ∧
      (get_video_frame r w).2.1.received_frame_count = r.received_frame_count ∧
      (get_video_frame r w).2.1.codecctx = r.codecctx ∧
      (((get_video_frame r w).1 = -1 ∧ (get_video_frame r w).2.1.next_pts = r.next_pts) ∨
       ((get_video_frame r w).1 = 0 ∧ (get_video_frame r w).2.1.next_pts = r.next_pts + 1 ∧
        (get_video_frame r w).2.1.frame_pts = r.next_pts)) := by
  by_cases h1 : w.next .av_frame_make_writable < 0
  · refine ⟨[.av_frame_make_writable r.frame (w.next .av_frame_make_writable)],
      ?_, ?_, ?_, ?_, ?_, ?_, ?_, Or.inl ⟨?_, ?_⟩⟩ <;>
      simp [get_video_frame, World.call, h1, trace_after, oformats_after, capture_call,
        script_after_suffix]
  · by_cases h2 : r.swsctx = .null
    · by_cases h3 : w.next .sws_getContext = 0
      · refine ⟨[.av_frame_make_writable r.frame (w.next .av_frame_make_writable),
          .sws_getContext 0], ?_, ?_, ?_, ?_, ?_, ?_, ?_, Or.inl ⟨?_, ?_⟩⟩ <;>
          simp [get_video_frame, World.call, h1, h2, h3, trace_after, oformats_after,
            capture_call, next_after_ne]
        intro fn
        exact (script_after_suffix _ _ _ _).trans (script_after_suffix _ _ _ _)
      · refine ⟨[.av_frame_make_writable r.frame (w.next .av_frame_make_writable),
          .sws_getContext (w.next .sws_getContext), .get_data, .sws_scale],
          ?_, ?_, ?_, ?_, ?_, ?_, ?_, Or.inr ⟨?_, ?_, ?_⟩⟩ <;>
          simp [get_video_frame, World.call, h1, h2, h3, trace_after, oformats_after,
            capture_call, next_after_ne, prepare_frame, trace_log, oformats_log, script_log]
        intro fn
        exact (script_after_suffix _ _ _ _).trans (script_after_suffix _ _ _ _)
    · refine ⟨[.av_frame_make_writable r.frame (w.next .av_frame_make_writable),
        .get_data, .sws_scale], ?_, ?_, ?_, ?_, ?_, ?_, ?_, Or.inr ⟨?_, ?_, ?_⟩⟩ <;>
        simp [get_video_frame, World.call, h1, h2, trace_after, oformats_after,
          capture_call, prepare_frame, trace_log, oformats_log, script_log,
          script_after_suffix]

theorem capture_call_silent (c : Call) (h : capture_call c = true) :
    submitted_pts c = none ∧ mark_of c = none ∧ is_emitted c = false ∧
    is_written c = false ∧ is_failed_write c = false := by
  cases c <;> simp_all [capture_call, submitted_pts, mark_of, is_emitted, is_written,
    is_failed_write]

theorem drain_call_silent (c : Call) (h : drain_call c = true) :
    submitted_pts c = none ∧ mark_of c = none := by
  cases c <;> simp_all [drain_call, submitted_pts, mark_of]

theorem setup_call_silent (c : Call) (h : setup_call c = true) :
    submitted_pts c = none ∧ mark_of c = none ∧ is_emitted c = false ∧
    is_written c = false ∧ is_failed_write c = false := by
  cases c <;> simp_all [setup_call, submitted_pts, mark_of, is_emitted, is_written,
    is_failed_write]

theorem filterMap_silent {α : Type} (f : Call → Option α) (evs : List Call)
    (h : ∀ c ∈ evs, f c = none) : evs.filterMap f = [] := by
  induction evs with
  | nil => rfl
  | cons c t ih =>
    rw [List.filterMap_cons, h c (List.mem_cons_self c t)]
    exact ih (fun d hd => h d (List.mem_cons_of_mem c hd))

theorem countP_silent (p : Call → Bool) (evs : List Call)
    (h : ∀ c ∈ evs, p c = false) : evs.countP p = 0 := by
  induction evs with
  | nil => rfl
  | cons c t ih =>
    rw [List.countP_cons, h c (List.mem_cons_self c t)]
    simp [ih (fun d hd => h d (List.mem_cons_of_mem c hd))]

/-- Capture calls leave every observed projection of the trace empty. -/
theorem capture_calls_silent (evs : List Call) (h : ∀ c ∈ evs, capture_call c = true) :
    sent_pts evs = [] ∧ lifecycle_marks evs = [] ∧ emitted_packets evs = 0 ∧
    written_packets evs = 0 ∧ failed_writes evs = 0 :=
  ⟨filterMap_silent _ _ (fun c hc => (capture_call_silent c (h c hc)).1),
   filterMap_silent _ _ (fun c hc => (capture_call_silent c (h c hc)).2.1),
   countP_silent _ _ (fun c hc => (capture_call_silent c (h c hc)).2.2.1),
   countP_silent _ _ (fun c hc => (capture_call_silent c (h c hc)).2.2.2.1),
   countP_silent _ _ (fun c hc => (capture_call_silent c (h c hc)).2.2.2.2)⟩

/-- Drain calls hold no submission, header or trailer. -/
theorem drain_calls_silent (evs : List Call) (h : ∀ c ∈ evs, drain_call c = true) :
    sent_pts evs = [] ∧ lifecycle_marks evs = [] :=
  ⟨filterMap_silent _ _ (fun c hc => (drain_call_silent c (h c hc)).1),
   filterMap_silent _ _ (fun c hc => (drain_call_silent c (h c hc)).2)⟩

/-- Setup calls leave every observed projection of the trace empty. -/
theorem setup_calls_silent (evs : List Call) (h : ∀ c ∈ evs, setup_call c = true) :
    sent_pts evs = [] ∧ lifecycle_marks evs = [] ∧ emitted_packets evs = 0 ∧
    written_packets evs = 0 ∧ failed_writes evs = 0 :=
  ⟨filterMap_silent _ _ (fun c hc => (setup_call_silent c (h c hc)).1),
   filterMap_silent _ _ (fun c hc => (setup_call_silent c (h c hc)).2.1),
   countP_silent _ _ (fun c hc => (setup_call_silent c (h c hc)).2.2.1),
   countP_silent _ _ (fun c hc => (setup_call_silent c (h c hc)).2.2.2.1),
   countP_silent _ _ (fun c hc => (setup_call_silent c (h c hc)).2.2.2.2)⟩

/-- The body of `write_video_frame`, in terms of the result of
`get_video_frame`. -/
theorem write_video_frame_eq (r : ScreenRecorder) (w : World) :
    write_video_frame r w =
      if (get_video_frame r w).1 < 0 then
        (-1, (get_video_frame r w).2.1, (get_video_frame r w).2.2)
      else if (get_video_frame r w).2.2.next .avcodec_send_frame < 0 then
        ((get_video_frame r w).2.2.next .avcodec_send_frame, (get_video_frame r w).2.1,
          (get_video_frame r w).2.2.after .avcodec_send_frame
            (.avcodec_send_frame (get_video_frame r w).2.1.codecctx
              (get_video_frame r w).2.1.frame_pts
              ((get_video_frame r w).2.2.next .avcodec_send_frame)))
      else
        drain (get_video_frame r w).2.1
          ((get_video_frame r w).2.2.after .avcodec_send_frame
            (.avcodec_send_frame (get_video_frame r w).2.1.codecctx
              (get_video_frame r w).2.1.frame_pts
              ((get_video_frame r w).2.2.next .avcodec_send_frame)))
          ((get_video_frame r w).2.2.script .avcodec_receive_packet) := by
  unfold write_video_frame
  rcases get_video_frame r w with ⟨a, b, c⟩
  simp [World.call, World.after, Function.update]

/-- The body of `recorder_step`, in terms of the result of
`write_video_frame`. -/
theorem recorder_step_eq (r : ScreenRecorder) (w : World) :
    recorder_step r w =
      if r.recorder_state ≠ .STATE_STARTED then (.ERR_UNAVAILABLE, r, w)
      else if (write_video_frame r w).1 ≠ AVERROR EAGAIN ∧
          (write_video_frame r w).1 ≠ AVERROR_EOF then
        (FAILURE, { (write_video_frame r w).2.1 with recorder_state := .STATE_ERROR },
          (write_video_frame r w).2.2)
      else (SUCCESS, (write_video_frame r w).2.1, (write_video_frame r w).2.2) := by
  unfold recorder_step
  rcases write_video_frame r w with ⟨a, b, c⟩
  rfl

theorem sent_pts_singleton_send (p : Ptr) (pts ret : Int) :
    sent_pts [Call.avcodec_send_frame p pts ret] = [pts] := rfl

theorem lifecycle_marks_singleton_send (p : Ptr) (pts ret : Int) :
    lifecycle_marks [Call.avcodec_send_frame p pts ret] = [.submission pts] := rfl

theorem counts_singleton_send (p : Ptr) (pts ret : Int) :
    emitted_packets [Call.avcodec_send_frame p pts ret] = 0 ∧
    written_packets [Call.avcodec_send_frame p pts ret] = 0 ∧
    failed_writes [Call.avcodec_send_frame p pts ret] = 0 := ⟨rfl, rfl, rfl⟩

/-- What `write_video_frame` does to the recorder and the trace. -/
theorem write_video_frame_spec (r : ScreenRecorder) (w : World) :
    step_effect r w (write_video_frame r w).2.1 (write_video_frame r w).2.2 ∧
    (write_video_frame r w).2.1.recorder_state = r.recorder_state := by
  obtain ⟨gevs, g1, g2, g3, g4, g5, g6, g7, g8⟩ := get_video_frame_spec r w
  obtain ⟨s1, s2, s3, s4, s5⟩ := capture_calls_silent gevs g2
  rw [write_video_frame_eq]
  by_cases h1 : (get_video_frame r w).1 < 0
  · rw [if_pos h1]
    have hn : (get_video_frame r w).2.1.next_pts = r.next_pts := by
      rcases g8 with h | h
      · exact h.2
      · rw [h.1] at h1; exact absurd h1 (by decide)
    exact ⟨⟨gevs, g1, g3, g4, by rw [s3]; simpa using g6, by rw [s3, s4, s5],
      Or.inl ⟨s1, s2, hn⟩⟩, g5⟩
  · rw [if_neg h1]
    have h0 : (get_video_frame r w).2.1.next_pts = r.next_pts + 1 ∧
        (get_video_frame r w).2.1.frame_pts = r.next_pts := by
      rcases g8 with h | h
      · rw [h.1] at h1; exact absurd (by decide) h1
      · exact h.2
    by_cases h2 : (get_video_frame r w).2.2.next .avcodec_send_frame < 0
    · rw [if_pos h2]
      refine ⟨⟨gevs ++ [.avcodec_send_frame (get_video_frame r w).2.1.codecctx
          (get_video_frame r w).2.1.frame_pts
          ((get_video_frame r w).2.2.next .avcodec_send_frame)], ?_, ?_, ?_, ?_, ?_,
          Or.inr ⟨?_, ?_, ?_⟩⟩, g5⟩
      · show ((get_video_frame r w).2.2.after _ _).trace = _
        rw [trace_after, g1, List.append_assoc]
      · exact g3
      · intro fn
        exact (script_after_suffix _ _ _ _).trans (g4 fn)
      · rw [emitted_packets_append, s3, (counts_singleton_send _ _ _).1]
        simpa using g6
      · rw [emitted_packets_append, written_packets_append, failed_writes_append, s3, s4, s5,
          (counts_singleton_send _ _ _).1, (counts_singleton_send _ _ _).2.1,
          (counts_singleton_send _ _ _).2.2]
      · rw [sent_pts_append, s1, sent_pts_singleton_send, h0.2]; rfl
      · rw [lifecycle_marks_append, s2, lifecycle_marks_singleton_send, h0.2]; rfl
      · exact h0.1
    · rw [if_neg h2]
      obtain ⟨devs, d1, d2, d3, d4, d5, d6, d7⟩ :=
        drain_spec ((get_video_frame r w).2.2.script .avcodec_receive_packet)
          (get_video_frame r w).2.1
          ((get_video_frame r w).2.2.after .avcodec_send_frame
            (.avcodec_send_frame (get_video_frame r w).2.1.codecctx
              (get_video_frame r w).2.1.frame_pts
              ((get_video_frame r w).2.2.next .avcodec_send_frame)))
      obtain ⟨e1, e2⟩ := drain_calls_silent devs d2
      refine ⟨⟨gevs ++ [.avcodec_send_frame (get_video_frame r w).2.1.codecctx
          (get_video_frame r w).2.1.frame_pts
          ((get_video_frame r w).2.2.next .avcodec_send_frame)] ++ devs, ?_, ?_, ?_, ?_, ?_,
          Or.inr ⟨?_, ?_, ?_⟩⟩, ?_⟩
      · rw [d1, trace_after, g1]
        simp only [List.append_assoc]
      · rw [d5, oformats_after, g3]
      · intro fn
        by_cases hfn : fn = .avcodec_receive_packet
        · subst hfn
          exact d6.trans (g4 _)
        · exact ((d7 fn hfn).trans (script_after_suffix _ _ _ _)).trans (g4 fn)
      · rw [d3]
        simp only [emitted_packets_append, s3, (counts_singleton_send _ _ _).1, g6]
        simp
      · rw [emitted_packets_append, emitted_packets_append, written_packets_append,
          written_packets_append, failed_writes_append, failed_writes_append, s3, s4, s5,
          (counts_singleton_send _ _ _).1, (counts_singleton_send _ _ _).2.1,
          (counts_singleton_send _ _ _).2.2, d4]
        ring
      · rw [sent_pts_append, sent_pts_append, s1, e1, sent_pts_singleton_send, h0.2]; rfl
      · rw [lifecycle_marks_append, lifecycle_marks_append, s2, e2,
          lifecycle_marks_singleton_send, h0.2]; rfl
      · rw [d3]; exact h0.1
      · rw [d3]; exact g5

/-- What `recorder_step` does to the recorder and the trace, in any state. -/
theorem recorder_step_spec (r : ScreenRecorder) (w : World) :
    step_effect r w (recorder_step r w).2.1 (recorder_step r w).2.2 := by
  obtain ⟨⟨evs, a1, a2, a3, a4, a5, a6⟩, _⟩ := write_video_frame_spec r w
  rw [recorder_step_eq]
  by_cases h : r.recorder_state ≠ .STATE_STARTED
  · rw [if_pos h]
    exact ⟨[], by simp, rfl, fun fn => List.suffix_refl _, by simp [emitted_packets_nil],
      rfl, Or.inl ⟨rfl, rfl, rfl⟩⟩
  · rw [if_neg h]
    by_cases h2 : (write_video_frame r w).1 ≠ AVERROR EAGAIN ∧
        (write_video_frame r w).1 ≠ AVERROR_EOF
    · rw [if_pos h2]
      exact ⟨evs, a1, a2, a3, a4, a5, a6⟩
    · rw [if_neg h2]
      exact ⟨evs, a1, a2, a3, a4, a5, a6⟩

theorem adds_refl (K : Call → Bool) (w : World) : adds K w w :=
  ⟨[], by simp, by simp, List.suffix_refl _, fun _ => List.suffix_refl _⟩

theorem adds_trans {K : Call → Bool} {w v u : World} (h1 : adds K w v) (h2 : adds K v u) :
    adds K w u := by
  obtain ⟨e1, a1, a2, a3, a4⟩ := h1
  obtain ⟨e2, b1, b2, b3, b4⟩ := h2
  refine ⟨e1 ++ e2, by rw [b1, a1, List.append_assoc], ?_, b3.trans a3,
    fun fn => (b4 fn).trans (a4 fn)⟩
  intro c hc
  rcases List.mem_append.mp hc with h | h
  · exact a2 c h
  · exact b2 c h

theorem adds_after {K : Call → Bool} {w v : World} (h : adds K w v) (fn : Ext) (c : Call)
    (hc : K c = true) : adds K w (v.after fn c) :=
  adds_trans h ⟨[c], rfl, by simpa using hc, List.suffix_refl _,
    fun g => script_after_suffix v fn c g⟩

theorem adds_log {K : Call → Bool} {w v : World} (h : adds K w v) (c : Call)
    (hc : K c = true) : adds K w (v.log c) :=
  adds_trans h ⟨[c], rfl, by simpa using hc, List.suffix_refl _, fun _ => List.suffix_refl _⟩

theorem adds_after_resolve {K : Call → Bool} {w v : World} (h : adds K w v)
    (name : Option String)
    (hc : ∀ o, K (.avformat_alloc_output_context2 name o) = true) :
    adds K w (v.after_resolve name) :=
  adds_trans h ⟨[.avformat_alloc_output_context2 name v.next_oformat], rfl,
    by simpa using hc _, List.tail_suffix _, fun _ => List.suffix_refl _⟩

/-- The options loop only records `av_dict_set` calls: the entries it forwards
are the keys of type STRING whose value is of type STRING, in key order. -/
theorem set_options_spec (d : Dictionary) (ks : List Variant) : ∀ w : World,
    (set_options d ks w).script = w.script ∧
    (set_options d ks w).oformats = w.oformats ∧
    ∃ evs : List Call,
      (set_options d ks w).trace = w.trace ++ evs ∧
      (∀ c ∈ evs, setup_call c = true) ∧
      forwarded_options evs = ks.filterMap (fun k => string_entry (k, Dictionary.get d k)) := by
  induction ks with
  | nil =>
    intro w
    exact ⟨rfl, rfl, [], by simp [set_options], by simp, rfl⟩
  | cons k ks ih =>
    intro w
    cases k with
    | STRING s =>
      cases hv : Dictionary.get d (.STRING s) with
      | STRING v =>
        obtain ⟨i1, i2, evs, i3, i4, i5⟩ := ih (w.log (.av_dict_set s v))
        have he : set_options d (.STRING s :: ks) w
            = set_options d ks (w.log (.av_dict_set s v)) := by
          simp [set_options, Variant.get_type, Variant.toGodotString, hv]
        rw [he]
        refine ⟨i1, i2, .av_dict_set s v :: evs, by rw [i3, trace_log]; simp, ?_, ?_⟩
        · intro c hc
          rcases List.mem_cons.mp hc with h | h
          · rw [h]; rfl
          · exact i4 c h
        · have hk : string_entry (Variant.STRING s, Dictionary.get d (.STRING s))
              = some (s, v) := by rw [hv]; rfl
          rw [List.filterMap_cons, hk, ← i5]
          rfl
      | NIL | BOOL _ | INT _ | OTHER _ =>
        obtain ⟨i1, i2, evs, i3, i4, i5⟩ := ih w
        have he : set_options d (.STRING s :: ks) w = set_options d ks w := by
          simp [set_options, Variant.get_type, Variant.toGodotString, hv]
        rw [he]
        refine ⟨i1, i2, evs, i3, i4, ?_⟩
        have hk : string_entry (Variant.STRING s, Dictionary.get d (.STRING s)) = none := by
          rw [hv]; rfl
        rw [List.filterMap_cons, hk]
        exact i5
    | NIL | BOOL _ | INT _ | OTHER _ =>
      obtain ⟨i1, i2, evs, i3, i4, i5⟩ := ih w
      have he : ∀ k' : Variant, k'.get_type ≠ .STRING →
          set_options d (k' :: ks) w = set_options d ks w := by
        intro k' hk'
        simp [set_options, hk']
      rw [he _ (by simp [Variant.get_type])]
      refine ⟨i1, i2, evs, i3, i4, ?_⟩
      rw [List.filterMap_cons]
      exact i5

theorem adds_set_options {w v : World} (h : adds setup_call w v) (d : Dictionary)
    (ks : List Variant) : adds setup_call w (set_options d ks v) := by
  obtain ⟨i1, i2, evs, i3, i4, _⟩ := set_options_spec d ks v
  exact adds_trans h ⟨evs, i3, i4, by rw [i2], fun fn => by rw [i1]⟩

/-- The function `initialize` is its three parts in sequence. -/
theorem initialize_recorder_eq (r : ScreenRecorder) (w : World) :
    initialize_recorder r w =
      match (initialize_format w).1 with
      | none => (FAILURE, { r with fmtctx := .null }, (initialize_format w).2)
      | some f =>
        if f.video_codec = AV_CODEC_ID_NONE then
          (FAILURE, { r with fmtctx := .live, fmt := some f }, (initialize_format w).2)
        else initialize_codec { r with fmtctx := .live, fmt := some f } (initialize_format w).2 := by
  unfold initialize_recorder initialize_format initialize_codec initialize_frames
  simp only [World.alloc_output]



theorem never_fails_of_adds {K : Call → Bool} {w v : World} (h : never_fails w)
    (a : adds K w v) : never_fails v := by
  obtain ⟨_, _, _, a3, a4⟩ := a
  exact ⟨fun fn x hx => h.1 fn x ((a4 fn).subset hx), fun o ho => h.2 o (a3.subset ho)⟩

/-- With stubs that never fail the next result of a call is one with which the
call does not fail. -/
theorem next_ok {w : World} (h : never_fails w) (fn : Ext) : ok_result fn (w.next fn) = true := by
  unfold World.next
  cases hs : w.script fn with
  | nil => cases fn <;> decide
  | cons x t =>
    exact h.1 fn x (by rw [hs]; exact List.mem_cons_self x t)

theorem next_oformat_ok {w : World} (h : never_fails w) :
    ∃ f, w.next_oformat = some f ∧ f.video_codec ≠ AV_CODEC_ID_NONE := by
  unfold World.next_oformat
  cases hs : w.oformats with
  | nil => exact ⟨default_oformat, rfl, by decide⟩
  | cons x t => exact h.2 x (by rw [hs]; exact List.mem_cons_self x t)

/-- The calls of `alloc_frame` are setup calls. -/
theorem alloc_frame_adds {w v : World} (h : adds setup_call w v) :
    adds setup_call w (alloc_frame v).2 := by
  unfold alloc_frame
  simp only [World.call]
  split_ifs
  · exact adds_after h _ _ (by rfl)
  · exact adds_after (adds_after h _ _ (by rfl)) _ _ (by rfl)
  · exact adds_after (adds_after h _ _ (by rfl)) _ _ (by rfl)

/-- With stubs that never fail `alloc_frame` returns a frame. -/
theorem alloc_frame_ok {w : World} (h : never_fails w) : (alloc_frame w).1 = .live := by
  have h1 := next_ok h .av_frame_alloc
  have h2 := next_ok (never_fails_of_adds h (adds_after (adds_refl setup_call w)
    .av_frame_alloc (.av_frame_alloc (w.next .av_frame_alloc)) rfl)) .av_frame_get_buffer
  simp only [ok_result, decide_eq_true_eq] at h1 h2
  unfold alloc_frame
  simp only [World.call]
  rw [if_neg h1, if_neg (not_lt.mpr h2)]

/-- The body of `initialize_frames` in terms of the results of `alloc_frame`. -/
theorem initialize_frames_eq (r : ScreenRecorder) (w : World) :
    initialize_frames r w =
      if (alloc_frame (alloc_frame w).2).2.next .avcodec_parameters_from_context < 0 then
        (FAILURE,
          { r with tmp_frame := (alloc_frame w).1, frame := (alloc_frame (alloc_frame w).2).1 },
          (alloc_frame (alloc_frame w).2).2.after .avcodec_parameters_from_context
            (.avcodec_parameters_from_context
              ((alloc_frame (alloc_frame w).2).2.next .avcodec_parameters_from_context)))
      else
        (SUCCESS,
          { r with tmp_frame := (alloc_frame w).1, frame := (alloc_frame (alloc_frame w).2).1,
                   recorder_state := .STATE_FINISHED },
          ((alloc_frame (alloc_frame w).2).2.after .avcodec_parameters_from_context
            (.avcodec_parameters_from_context
              ((alloc_frame (alloc_frame w).2).2.next
                .avcodec_parameters_from_context))).log .av_dump_format) := by
  unfold initialize_frames
  rcases alloc_frame w with ⟨a, b⟩
  simp only []
  rcases alloc_frame b with ⟨c, d⟩
  rfl

theorem initialize_frames_adds (r : ScreenRecorder) {w v : World} (h : adds setup_call w v) :
    adds setup_call w (initialize_frames r v).2.2 := by
  rw [initialize_frames_eq]
  split_ifs
  · exact adds_after (alloc_frame_adds (alloc_frame_adds h)) _ _ (by rfl)
  · exact adds_log (adds_after (alloc_frame_adds (alloc_frame_adds h)) _ _ (by rfl)) _ (by rfl)

theorem initialize_frames_keeps (r : ScreenRecorder) (w : World) :
    (initialize_frames r w).2.1.next_pts = r.next_pts ∧
    (initialize_frames r w).2.1.received_frame_count = r.received_frame_count ∧
    (initialize_frames r w).2.1.options = r.options ∧
    (initialize_frames r w).2.1.swsctx = r.swsctx ∧
    (initialize_frames r w).2.1.fmtctx = r.fmtctx ∧
    (initialize_frames r w).2.1.fmt = r.fmt ∧
    (initialize_frames r w).2.1.codecctx = r.codecctx := by
  rw [initialize_frames_eq]
  split_ifs <;> exact ⟨rfl, rfl, rfl, rfl, rfl, rfl, rfl⟩

theorem initialize_frames_ok (r : ScreenRecorder) {w : World} (h : never_fails w) :
    (initialize_frames r w).1 = SUCCESS ∧
    (initialize_frames r w).2.1.recorder_state = .STATE_FINISHED ∧
    (initialize_frames r w).2.1.frame = .live ∧
    (initialize_frames r w).2.1.tmp_frame = .live := by
  have h1 : never_fails (alloc_frame w).2 :=
    never_fails_of_adds h (alloc_frame_adds (adds_refl _ _))
  have h2 : never_fails (alloc_frame (alloc_frame w).2).2 :=
    never_fails_of_adds h1 (alloc_frame_adds (adds_refl _ _))
  have h3 := next_ok h2 .avcodec_parameters_from_context
  simp only [ok_result, decide_eq_true_eq] at h3
  rw [initialize_frames_eq, if_neg (not_lt.mpr h3)]
  exact ⟨rfl, rfl, alloc_frame_ok h1, alloc_frame_ok h⟩

theorem never_fails_after {w : World} (h : never_fails w) (fn : Ext) (c : Call) :
    never_fails (w.after fn c) :=
  ⟨fun g x hx => h.1 g x ((script_after_suffix w fn c g).subset hx), h.2⟩

theorem never_fails_log {w : World} (h : never_fails w) (c : Call) : never_fails (w.log c) := h

theorem never_fails_after_resolve {w : World} (h : never_fails w) (name : Option String) :
    never_fails (w.after_resolve name) :=
  ⟨h.1, fun o ho => h.2 o ((List.tail_suffix _).subset ho)⟩

theorem never_fails_set_options {w : World} (h : never_fails w) (d : Dictionary)
    (ks : List Variant) : never_fails (set_options d ks w) :=
  never_fails_of_adds h (adds_set_options (adds_refl _ _) d ks)

/-- With stubs that never fail a pointer-returning call does not return null. -/
theorem next_ptr_ne_zero {w : World} (h : never_fails w) (fn : Ext)
    (hfn : ok_result fn 0 = false) : w.next fn ≠ 0 := by
  intro h0
  have h1 := next_ok h fn
  rw [h0, hfn] at h1
  exact absurd h1 (by decide)

/-- With stubs that never fail a call that returns a code does not return a
negative one. -/
theorem next_not_neg {w : World} (h : never_fails w) (fn : Ext)
    (hfn : ∀ x, ok_result fn x = decide (0 ≤ x)) : ¬ w.next fn < 0 := by
  have h1 := next_ok h fn
  rw [hfn] at h1
  exact not_lt.mpr (of_decide_eq_true h1)

theorem initialize_codec_adds (r : ScreenRecorder) {w v : World} (h : adds setup_call w v) :
    adds setup_call w (initialize_codec r v).2.2 := by
  unfold initialize_codec
  simp only [World.call]
  split_ifs
  · exact adds_after (adds_set_options h _ _) _ _ (by rfl)
  · exact adds_after (adds_after (adds_set_options h _ _) _ _ (by rfl)) _ _ (by rfl)
  · exact adds_after (adds_after (adds_after (adds_set_options h _ _) _ _ (by rfl)) _ _
      (by rfl)) _ _ (by rfl)
  · exact adds_after (adds_after (adds_after (adds_after (adds_set_options h _ _) _ _
      (by rfl)) _ _ (by rfl)) _ _ (by rfl)) _ _ (by rfl)
  · exact initialize_frames_adds _ (adds_after (adds_after (adds_after (adds_after
      (adds_set_options h _ _) _ _ (by rfl)) _ _ (by rfl)) _ _ (by rfl)) _ _ (by rfl))

theorem initialize_codec_keeps (r : ScreenRecorder) (w : World) :
    (initialize_codec r w).2.1.next_pts = r.next_pts ∧
    (initialize_codec r w).2.1.received_frame_count = r.received_frame_count ∧
    (initialize_codec r w).2.1.options = r.options ∧
    (initialize_codec r w).2.1.swsctx = r.swsctx ∧
    (initialize_codec r w).2.1.fmtctx = r.fmtctx ∧
    (initialize_codec r w).2.1.fmt = r.fmt := by
  unfold initialize_codec
  simp only [World.call]
  split_ifs
  · exact ⟨rfl, rfl, rfl, rfl, rfl, rfl⟩
  · exact ⟨rfl, rfl, rfl, rfl, rfl, rfl⟩
  · exact ⟨rfl, rfl, rfl, rfl, rfl, rfl⟩
  · exact ⟨rfl, rfl, rfl, rfl, rfl, rfl⟩
  · exact ⟨(initialize_frames_keeps _ _).1, (initialize_frames_keeps _ _).2.1,
      (initialize_frames_keeps _ _).2.2.1, (initialize_frames_keeps _ _).2.2.2.1,
      (initialize_frames_keeps _ _).2.2.2.2.1, (initialize_frames_keeps _ _).2.2.2.2.2.1⟩

theorem initialize_codec_ok (r : ScreenRecorder) {w : World} (h : never_fails w) :
    (initialize_codec r w).1 = SUCCESS ∧
    (initialize_codec r w).2.1.recorder_state = .STATE_FINISHED ∧
    (initialize_codec r w).2.1.frame = .live ∧
    (initialize_codec r w).2.1.tmp_frame = .live := by
  have n0 := never_fails_set_options h r.options (Dictionary.keys r.options)
  unfold initialize_codec
  simp only [World.call]
  split_ifs with h1 h2 h3 h4
  · exact absurd h1 (next_ptr_ne_zero n0 _ rfl)
  · exact absurd h2 (next_ptr_ne_zero (never_fails_after n0 _ _) _ rfl)
  · exact absurd h3 (next_ptr_ne_zero (never_fails_after (never_fails_after n0 _ _) _ _) _ rfl)
  · exact absurd h4 (next_not_neg (never_fails_after (never_fails_after
      (never_fails_after n0 _ _) _ _) _ _) _ (fun _ => rfl))
  · exact initialize_frames_ok _ (never_fails_after (never_fails_after (never_fails_after
      (never_fails_after n0 _ _) _ _) _ _) _ _)

theorem initialize_format_adds (w : World) : adds setup_call w (initialize_format w).2 := by
  unfold initialize_format
  simp only [World.alloc_output]
  split
  · exact adds_after_resolve (adds_log (adds_refl _ _) _ (by rfl)) _ (fun _ => rfl)
  · exact adds_after_resolve (adds_after_resolve (adds_log (adds_refl _ _) _ (by rfl)) _
      (fun _ => rfl)) _ (fun _ => rfl)

theorem initialize_format_ok {w : World} (h : never_fails w) :
    ∃ f, (initialize_format w).1 = some f ∧ f.video_codec ≠ AV_CODEC_ID_NONE := by
  obtain ⟨f, hf, hc⟩ := next_oformat_ok (never_fails_log h .get_data)
  refine ⟨f, ?_, hc⟩
  unfold initialize_format
  simp only [World.alloc_output, hf]

/-- The calls `initialize` adds are setup calls. -/
theorem initialize_adds (r : ScreenRecorder) (w : World) :
    adds setup_call w (initialize_recorder r w).2.2 := by
  rw [initialize_recorder_eq]
  split
  · exact initialize_format_adds w
  · split_ifs
    · exact initialize_format_adds w
    · exact initialize_codec_adds _ (initialize_format_adds w)

/-- The fields `initialize` does not write. -/
theorem initialize_keeps (r : ScreenRecorder) (w : World) :
    (initialize_recorder r w).2.1.next_pts = r.next_pts ∧
    (initialize_recorder r w).2.1.received_frame_count = r.received_frame_count ∧
    (initialize_recorder r w).2.1.options = r.options ∧
    (initialize_recorder r w).2.1.swsctx = r.swsctx := by
  rw [initialize_recorder_eq]
  split
  · exact ⟨rfl, rfl, rfl, rfl⟩
  · split_ifs
    · exact ⟨rfl, rfl, rfl, rfl⟩
    · exact ⟨(initialize_codec_keeps _ _).1, (initialize_codec_keeps _ _).2.1,
        (initialize_codec_keeps _ _).2.2.1, (initialize_codec_keeps _ _).2.2.2.1⟩

/-- With stubs that never fail `initialize` succeeds and leaves a recorder in
state Finished with both frame buffers, the container context and a format. -/
theorem initialize_ok (r : ScreenRecorder) {w : World} (h : never_fails w) :
    (initialize_recorder r w).1 = SUCCESS ∧
    (initialize_recorder r w).2.1.recorder_state = .STATE_FINISHED ∧
    (initialize_recorder r w).2.1.frame = .live ∧
    (initialize_recorder r w).2.1.tmp_frame = .live := by
  obtain ⟨f, hf, hc⟩ := initialize_format_ok h
  rw [initialize_recorder_eq]
  simp only [hf, hc, if_false]
  exact initialize_codec_ok _ (never_fails_of_adds h (initialize_format_adds w))

theorem start_call_silent (c : Call) (h : start_call c = true) :
    submitted_pts c = none ∧ is_emitted c = false ∧
    is_written c = false ∧ is_failed_write c = false := by
  cases c <;> simp_all [start_call, submitted_pts, is_emitted, is_written, is_failed_write]

/-- The calls `start_recorder` adds are a sink open and a header write. -/
theorem start_recorder_adds (r : ScreenRecorder) (w : World) :
    adds start_call w (start_recorder r w).2.2 := by
  unfold start_recorder
  simp only [World.call]
  split_ifs
  all_goals
    first
    | exact adds_refl _ _
    | exact adds_after (adds_refl _ _) _ _ (by rfl)
    | exact adds_after (adds_after (adds_refl _ _) _ _ (by rfl)) _ _ (by rfl)

/-- The fields `start_recorder` does not write. -/
theorem start_recorder_keeps (r : ScreenRecorder) (w : World) :
    (start_recorder r w).2.1.next_pts = r.next_pts ∧
    (start_recorder r w).2.1.received_frame_count = r.received_frame_count ∧
    (start_recorder r w).2.1.frame = r.frame ∧
    (start_recorder r w).2.1.fmtctx = r.fmtctx := by
  unfold start_recorder
  simp only [World.call]
  split_ifs <;> exact ⟨rfl, rfl, rfl, rfl⟩

/-- With stubs that never fail `start_recorder` on a Finished recorder
succeeds, moves to Started and writes the header once. -/
theorem start_recorder_ok (r : ScreenRecorder) {w : World} (h : never_fails w)
    (hs : r.recorder_state = .STATE_FINISHED) :
    (start_recorder r w).1 = SUCCESS ∧
    (start_recorder r w).2.1.recorder_state = .STATE_STARTED ∧
    lifecycle_marks (start_recorder r w).2.2.trace = lifecycle_marks w.trace ++ [.header] := by
  unfold start_recorder
  simp only [World.call, hs, ne_eq, not_true_eq_false, if_false]
  cases hf : fmt_has_flag r.fmt AVFMT_NOFILE
  · simp only [Bool.not_false, if_true]
    have h1 := next_not_neg h .avio_open (fun _ => rfl)
    have h2 := next_not_neg (never_fails_after h .avio_open
      (.avio_open r.fmtctx (w.next .avio_open))) .avformat_write_header (fun _ => rfl)
    rw [if_neg h1, if_neg h2]
    exact ⟨rfl, rfl, by simp [trace_after, lifecycle_marks_append, lifecycle_marks, mark_of]⟩
  · simp only [Bool.not_true, Bool.false_eq_true, if_false]
    have h1 := next_not_neg h .avformat_write_header (fun _ => rfl)
    rw [if_neg (by decide), if_neg h1]
    exact ⟨rfl, rfl, by simp [trace_after, lifecycle_marks_append, lifecycle_marks, mark_of]⟩

theorem started_eq (w : World) :
    started w =
      ((start_recorder (initialize_recorder {} w).2.1 (initialize_recorder {} w).2.2).2.1,
       (start_recorder (initialize_recorder {} w).2.1 (initialize_recorder {} w).2.2).2.2) := by
  rfl

theorem steps_succ (n : Nat) (r : ScreenRecorder) (w : World) :
    steps (n + 1) r w = steps n (recorder_step r w).2.1 (recorder_step r w).2.2 := by
  rfl

/-- A property of recorder and world that every pipeline call keeps is kept
by any number of steps. -/
theorem steps_keep (P : ScreenRecorder → World → Prop)
    (hP : ∀ r w r' w', step_effect r w r' w' → P r w → P r' w') (n : Nat) :
    ∀ (r : ScreenRecorder) (w : World), P r w → P (steps n r w).1 (steps n r w).2 := by
  induction n with
  | zero => intro r w h; exact h
  | succ n ih =>
    intro r w h
    rw [steps_succ]
    exact ih _ _ (hP r w _ _ (recorder_step_spec r w) h)

/-- One pipeline call keeps "the submitted timestamps are 0, ..., m-1 and
`next_pts` is m". -/
theorem step_effect_pts (r : ScreenRecorder) (w : World) (r' : ScreenRecorder) (w' : World)
    (h : step_effect r w r' w')
    (hi : ∃ m : Nat, sent_pts w.trace = (List.range m).map Int.ofNat ∧ r.next_pts = m) :
    ∃ m : Nat, sent_pts w'.trace = (List.range m).map Int.ofNat ∧ r'.next_pts = m := by
  obtain ⟨evs, a1, _, _, _, _, a6⟩ := h
  obtain ⟨m, i1, i2⟩ := hi
  rcases a6 with ⟨b1, _, b3⟩ | ⟨b1, _, b3⟩
  · exact ⟨m, by rw [a1, sent_pts_append, b1, i1, List.append_nil], by rw [b3, i2]⟩
  · refine ⟨m + 1, ?_, by rw [b3, i2]; push_cast; rfl⟩
    rw [a1, sent_pts_append, b1, i1, i2, List.range_succ, List.map_append]
    rfl

/-- One pipeline call keeps "`received_frame_count` is the number of emitted
packets, each of them handed to the muxer once". -/
theorem step_effect_count (r : ScreenRecorder) (w : World) (r' : ScreenRecorder) (w' : World)
    (h : step_effect r w r' w')
    (hi : r.received_frame_count = emitted_packets w.trace ∧
      emitted_packets w.trace = written_packets w.trace + failed_writes w.trace) :
    r'.received_frame_count = emitted_packets w'.trace ∧
      emitted_packets w'.trace = written_packets w'.trace + failed_writes w'.trace := by
  obtain ⟨evs, a1, _, _, a4, a5, _⟩ := h
  obtain ⟨i1, i2⟩ := hi
  refine ⟨?_, ?_⟩
  · rw [a4, a1, emitted_packets_append, i1]
    push_cast
    rfl
  · rw [a1, emitted_packets_append, written_packets_append, failed_writes_append, i2, a5]
    ring

/-- The trace of a recorder taken to Started from an empty trace holds no
submission and no packet, and both counters are still zero. -/
theorem started_fresh (ofs : List (Option AVOutputFormat)) (sc : Ext → List Int) :
    sent_pts (started ⟨ofs, sc, []⟩).2.trace = [] ∧
    emitted_packets (started ⟨ofs, sc, []⟩).2.trace = 0 ∧
    written_packets (started ⟨ofs, sc, []⟩).2.trace = 0 ∧
    failed_writes (started ⟨ofs, sc, []⟩).2.trace = 0 ∧
    (started ⟨ofs, sc, []⟩).1.next_pts = 0 ∧
    (started ⟨ofs, sc, []⟩).1.received_frame_count = 0 := by
  rw [started_eq]
  obtain ⟨e1, a1, a2, _, _⟩ := initialize_adds {} ⟨ofs, sc, []⟩
  obtain ⟨e2, b1, b2, _, _⟩ := start_recorder_adds (initialize_recorder {} ⟨ofs, sc, []⟩).2.1
    (initialize_recorder {} ⟨ofs, sc, []⟩).2.2
  obtain ⟨s1, _, s3, s4, s5⟩ := setup_calls_silent e1 a2
  have t1 : sent_pts e2 = [] :=
    filterMap_silent _ _ (fun c hc => (start_call_silent c (b2 c hc)).1)
  have t2 : emitted_packets e2 = 0 :=
    countP_silent _ _ (fun c hc => (start_call_silent c (b2 c hc)).2.1)
  have t3 : written_packets e2 = 0 :=
    countP_silent _ _ (fun c hc => (start_call_silent c (b2 c hc)).2.2.1)
  have t4 : failed_writes e2 = 0 :=
    countP_silent _ _ (fun c hc => (start_call_silent c (b2 c hc)).2.2.2)
  obtain ⟨k1, k2, _, _⟩ := initialize_keeps {} ⟨ofs, sc, []⟩
  obtain ⟨l1, l2, _, _⟩ := start_recorder_keeps (initialize_recorder {} ⟨ofs, sc, []⟩).2.1
    (initialize_recorder {} ⟨ofs, sc, []⟩).2.2
  simp only [b1, a1, List.nil_append]
  refine ⟨?_, ?_, ?_, ?_, ?_, ?_⟩
  · rw [sent_pts_append, s1, t1]; rfl
  · rw [emitted_packets_append, s3, t2]
  · rw [written_packets_append, s4, t3]
  · rw [failed_writes_append, s5, t4]
  · rw [l1, k1]
  · rw [l2, k2]

/-- With stubs that never fail `get_video_frame` returns 0. -/
theorem get_video_frame_ok (r : ScreenRecorder) {w : World} (h : never_fails w) :
    (get_video_frame r w).1 = 0 := by
  have h1 := next_not_neg h .av_frame_make_writable (fun _ => rfl)
  have h3 := next_ptr_ne_zero h .sws_getContext rfl
  by_cases h2 : r.swsctx = .null
  · simp [get_video_frame, World.call, h1, h2, h3, next_after_ne]
  · simp [get_video_frame, World.call, h1, h2]

/-- With stubs that never fail the drain loop ends on `AVERROR(EAGAIN)` or on
`AVERROR_EOF`. -/
theorem drain_ok (l : List Int) : ∀ (r : ScreenRecorder) (w : World),
    (∀ x ∈ l, ok_result .avcodec_receive_packet x = true) →
    (∀ x ∈ w.script .av_interleaved_write_frame, 0 ≤ x) →
    (drain r w l).1 = AVERROR EAGAIN ∨ (drain r w l).1 = AVERROR_EOF := by
  induction l with
  | nil => intro r w _ _; exact Or.inl rfl
  | cons ret rest ih =>
    intro r w hl hw
    by_cases h : ret = AVERROR EAGAIN ∨ ret = AVERROR_EOF
    · rw [drain_cons_stop r w ret rest (Or.inl h)]
      exact h
    · have hok := hl ret (List.mem_cons_self ret rest)
      have hpos : 0 ≤ ret := by
        simp only [ok_result, Bool.or_eq_true, decide_eq_true_eq] at hok
        rcases hok with (h0 | h0) | h0
        · exact h0
        · exact absurd (Or.inl h0) h
        · exact absurd (Or.inr h0) h
      have hwn : ¬ w.next .av_interleaved_write_frame < 0 := by
        unfold World.next
        cases hs : w.script .av_interleaved_write_frame with
        | nil => decide
        | cons x t => exact not_lt.mpr (hw x (by rw [hs]; exact List.mem_cons_self x t))
      rw [drain_cons_written r w ret rest h (not_lt.mpr hpos) hwn]
      refine ih _ _ (fun x hx => hl x (List.mem_cons_of_mem ret hx)) ?_
      intro x hx
      simp only [Function.update, ↓reduceDIte, eq_rec_constant] at hx
      exact hw x ((List.tail_suffix _).subset hx)

theorem write_video_frame_next_pts (r : ScreenRecorder) (w : World) :
    (write_video_frame r w).2.1.next_pts = (get_video_frame r w).2.1.next_pts := by
  rw [write_video_frame_eq]
  split_ifs
  · rfl
  · rfl
  · obtain ⟨_, _, _, d3, _⟩ := drain_spec
      ((get_video_frame r w).2.2.script .avcodec_receive_packet) (get_video_frame r w).2.1
      ((get_video_frame r w).2.2.after .avcodec_send_frame
        (.avcodec_send_frame (get_video_frame r w).2.1.codecctx
          (get_video_frame r w).2.1.frame_pts
          ((get_video_frame r w).2.2.next .avcodec_send_frame)))
    rw [d3]

/-- With stubs that never fail `write_video_frame` ends on `AVERROR(EAGAIN)`
or on `AVERROR_EOF`. -/
theorem write_video_frame_ok (r : ScreenRecorder) {w : World} (h : never_fails w) :
    (write_video_frame r w).1 = AVERROR EAGAIN ∨ (write_video_frame r w).1 = AVERROR_EOF := by
  obtain ⟨_, _, _, g3, g4, _⟩ := get_video_frame_spec r w
  have hg : never_fails (get_video_frame r w).2.2 :=
    ⟨fun fn x hx => h.1 fn x ((g4 fn).subset hx), fun o ho => h.2 o (by rw [g3] at ho; exact ho)⟩
  have h0 := get_video_frame_ok r h
  have h2 := next_not_neg hg .avcodec_send_frame (fun _ => rfl)
  rw [write_video_frame_eq, if_neg (by rw [h0]; decide), if_neg h2]
  refine drain_ok _ _ _ ?_ ?_
  · intro x hx
    exact hg.1 _ x hx
  · intro x hx
    have hx' : x ∈ (get_video_frame r w).2.2.script .av_interleaved_write_frame :=
      (script_after_suffix _ _ _ _).subset hx
    have := hg.1 _ x hx'
    simpa [ok_result] using this

/-- With stubs that never fail a step on a started recorder succeeds, stays
Started and submits exactly one frame, stamped with `next_pts`. -/
theorem recorder_step_ok (r : ScreenRecorder) {w : World} (h : never_fails w)
    (hs : r.recorder_state = .STATE_STARTED) :
    (recorder_step r w).1 = SUCCESS ∧
    (recorder_step r w).2.1.recorder_state = .STATE_STARTED ∧
    (recorder_step r w).2.1.next_pts = r.next_pts + 1 ∧
    lifecycle_marks (recorder_step r w).2.2.trace
      = lifecycle_marks w.trace ++ [.submission r.next_pts] ∧
    never_fails (recorder_step r w).2.2 := by
  obtain ⟨⟨evs, a1, a2, a3, _, _, a6⟩, a7⟩ := write_video_frame_spec r w
  have hok := write_video_frame_ok r h
  have hn : (write_video_frame r w).2.1.next_pts = r.next_pts + 1 := by
    rw [write_video_frame_next_pts]
    obtain ⟨_, _, _, _, _, _, _, _, g8⟩ := get_video_frame_spec r w
    rcases g8 with g | g
    · rw [get_video_frame_ok r h] at g
      exact absurd g.1 (by decide)
    · exact g.2.1
  have hm : lifecycle_marks evs = [.submission r.next_pts] := by
    rcases a6 with ⟨_, _, b3⟩ | ⟨_, b2, _⟩
    · rw [hn] at b3
      exact absurd b3 (by omega)
    · exact b2
  have hc : ¬ ((write_video_frame r w).1 ≠ AVERROR EAGAIN ∧
      (write_video_frame r w).1 ≠ AVERROR_EOF) := by
    rintro ⟨c1, c2⟩
    rcases hok with c | c
    · exact c1 c
    · exact c2 c
  rw [recorder_step_eq, if_neg (by rw [hs]; decide), if_neg hc]
  refine ⟨rfl, by rw [a7, hs], hn, by rw [a1, lifecycle_marks_append, hm], ?_⟩
  exact ⟨fun fn x hx => h.1 fn x ((a3 fn).subset hx), fun o ho => h.2 o (by rw [a2] at ho; exact ho)⟩

/-- With stubs that never fail, `n` steps on a started recorder submit `n`
frames, stamped `next_pts`, `next_pts + 1`, ... -/
theorem steps_ok (n : Nat) : ∀ (r : ScreenRecorder) (w : World), never_fails w →
    r.recorder_state = .STATE_STARTED →
    (steps n r w).1.recorder_state = .STATE_STARTED ∧
    lifecycle_marks (steps n r w).2.trace
      = lifecycle_marks w.trace ++
        (List.range n).map (fun (k : Nat) => Mark.submission (r.next_pts + (k : Int))) ∧
    never_fails (steps n r w).2 := by
  induction n with
  | zero =>
    intro r w h hs
    exact ⟨hs, by simp [steps], h⟩
  | succ n ih =>
    intro r w h hs
    obtain ⟨_, s2, s3, s4, s5⟩ := recorder_step_ok r h hs
    obtain ⟨i1, i2, i3⟩ := ih _ _ s5 s2
    rw [steps_succ]
    refine ⟨i1, ?_, i3⟩
    rw [i2, s4, s3, List.range_succ_eq_map, List.map_cons, List.map_map, List.append_assoc]
    simp only [List.singleton_append, Nat.cast_zero, add_zero]
    congr 2
    apply List.map_congr_left
    intro k _
    simp only [Function.comp, Nat.cast_succ]
    congr 1
    ring

/-- With stubs that never fail `stop_recorder` on a started recorder writes
the trailer once and succeeds. -/
theorem stop_recorder_ok (r : ScreenRecorder) {w : World} (h : never_fails w)
    (hs : r.recorder_state = .STATE_STARTED) :
    (stop_recorder r w).1 = SUCCESS ∧
    (stop_recorder r w).2.1.recorder_state = .STATE_FINISHED ∧
    lifecycle_marks (stop_recorder r w).2.2.trace = lifecycle_marks w.trace ++ [.trailer] := by
  have h1 := next_not_neg h .av_write_trailer (fun _ => rfl)
  unfold stop_recorder
  simp only [World.call, hs]
  rw [if_neg (by decide), if_neg h1]
  refine ⟨rfl, rfl, ?_⟩
  cases hf : fmt_has_flag r.fmt AVFMT_NOFILE <;>
    simp [hf, trace_after, trace_log, lifecycle_marks_append, lifecycle_marks, mark_of]

theorem forwarded_after (w : World) (fn : Ext) (c : Call) (h : option_of c = none) :
    forwarded_options (w.after fn c).trace = forwarded_options w.trace := by
  rw [trace_after, forwarded_options_append]
  simp [forwarded_options, h]

theorem forwarded_log (w : World) (c : Call) (h : option_of c = none) :
    forwarded_options (w.log c).trace = forwarded_options w.trace := by
  rw [trace_log, forwarded_options_append]
  simp [forwarded_options, h]

theorem forwarded_after_resolve (w : World) (name : Option String) :
    forwarded_options (w.after_resolve name).trace = forwarded_options w.trace := by
  unfold World.after_resolve
  simp [forwarded_options_append, forwarded_options, option_of]

theorem alloc_frame_forwards (w : World) :
    forwarded_options (alloc_frame w).2.trace = forwarded_options w.trace := by
  unfold alloc_frame
  simp only [World.call]
  split_ifs
  · exact forwarded_after _ _ _ (by rfl)
  · exact (forwarded_after _ _ _ (by rfl)).trans (forwarded_after _ _ _ (by rfl))
  · exact (forwarded_after _ _ _ (by rfl)).trans (forwarded_after _ _ _ (by rfl))

theorem initialize_frames_forwards (r : ScreenRecorder) (w : World) :
    forwarded_options (initialize_frames r w).2.2.trace = forwarded_options w.trace := by
  rw [initialize_frames_eq]
  split_ifs
  · exact (forwarded_after _ _ _ (by rfl)).trans
      ((alloc_frame_forwards _).trans (alloc_frame_forwards _))
  · exact (forwarded_log _ _ (by rfl)).trans ((forwarded_after _ _ _ (by rfl)).trans
      ((alloc_frame_forwards _).trans (alloc_frame_forwards _)))

/-- The option entries `initialize` forwards from the options loop on: one
`av_dict_set` for each key of type STRING whose value is of type STRING. -/
theorem initialize_codec_forwards (r : ScreenRecorder) (w : World) :
    forwarded_options (initialize_codec r w).2.2.trace
      = forwarded_options w.trace ++
        (Dictionary.keys r.options).filterMap
          (fun k => string_entry (k, Dictionary.get r.options k)) := by
  obtain ⟨_, _, evs, i3, _, i5⟩ := set_options_spec r.options (Dictionary.keys r.options) w
  have hs : forwarded_options (set_options r.options (Dictionary.keys r.options) w).trace
      = forwarded_options w.trace ++
        (Dictionary.keys r.options).filterMap
          (fun k => string_entry (k, Dictionary.get r.options k)) := by
    rw [i3, forwarded_options_append, i5]
  rw [← hs]
  unfold initialize_codec
  simp only [World.call]
  split_ifs
  · exact forwarded_after _ _ _ (by rfl)
  · exact (forwarded_after _ _ _ (by rfl)).trans (forwarded_after _ _ _ (by rfl))
  · exact (forwarded_after _ _ _ (by rfl)).trans ((forwarded_after _ _ _ (by rfl)).trans
      (forwarded_after _ _ _ (by rfl)))
  · exact (forwarded_after _ _ _ (by rfl)).trans ((forwarded_after _ _ _ (by rfl)).trans
      ((forwarded_after _ _ _ (by rfl)).trans (forwarded_after _ _ _ (by rfl))))
  · exact (initialize_frames_forwards _ _).trans ((forwarded_after _ _ _ (by rfl)).trans
      ((forwarded_after _ _ _ (by rfl)).trans ((forwarded_after _ _ _ (by rfl)).trans
        (forwarded_after _ _ _ (by rfl)))))

theorem initialize_format_forwards (w : World) :
    forwarded_options (initialize_format w).2.trace = forwarded_options w.trace := by
  unfold initialize_format
  simp only [World.alloc_output]
  split
  · exact (forwarded_after_resolve _ _).trans (forwarded_log _ _ (by rfl))
  · exact (forwarded_after_resolve _ _).trans
      ((forwarded_after_resolve _ _).trans (forwarded_log _ _ (by rfl)))

/-- In a dictionary, whose keys are distinct, `operator[]` on the key of an
entry gives the value of that entry. -/
theorem dictionary_get_of_mem (d : Dictionary) (hd : (Dictionary.keys d).Nodup)
    (e : Variant × Variant) (he : e ∈ d) : Dictionary.get d e.1 = e.2 := by
  induction d with
  | nil => exact absurd he (List.not_mem_nil e)
  | cons e0 t ih =>
    have hd' : e0.1 ∉ Dictionary.keys t ∧ (Dictionary.keys t).Nodup := by
      simpa [Dictionary.keys] using hd
    rcases List.mem_cons.mp he with h | h
    · subst h
      simp [Dictionary.get]
    · have hne : e0.1 ≠ e.1 := by
        intro heq
        apply hd'.1
        rw [heq]
        exact List.mem_map_of_mem Prod.fst h
      have := ih hd'.2 h
      simp only [Dictionary.get, List.find?_cons, decide_eq_true_eq] at this ⊢
      simp only [hne, decide_False]
      exact this

/-- Looking every key up gives back the entries of the dictionary. -/
theorem keys_lookup_eq_entries (d : Dictionary) (hd : (Dictionary.keys d).Nodup) :
    (Dictionary.keys d).filterMap (fun k => string_entry (k, Dictionary.get d k))
      = string_entries d := by
  unfold Dictionary.keys string_entries
  rw [List.filterMap_map]
  apply List.filterMap_congr
  intro e he
  simp only [Function.comp]
  rw [dictionary_get_of_mem d hd e he]

/-- On a started recorder the outcome of `recorder_step` is decided by the
code `write_video_frame` returns alone: SUCCESS and Started when it is
`AVERROR(EAGAIN)` or `AVERROR_EOF`, FAILURE and Error otherwise. -/
theorem recorder_step_started (r : ScreenRecorder) (w : World)
    (hs : r.recorder_state = .STATE_STARTED) :
    (((write_video_frame r w).1 = AVERROR EAGAIN ∨ (write_video_frame r w).1 = AVERROR_EOF) →
      (recorder_step r w).1 = SUCCESS ∧
      (recorder_step r w).2.1.recorder_state = .STATE_STARTED) ∧
    (¬ ((write_video_frame r w).1 = AVERROR EAGAIN ∨ (write_video_frame r w).1 = AVERROR_EOF) →
      (recorder_step r w).1 = FAILURE ∧
      (recorder_step r w).2.1.recorder_state = .STATE_ERROR) := by
  have hw := (write_video_frame_spec r w).2
  rw [recorder_step_eq, if_neg (by rw [hs]; decide)]
  constructor
  · intro h
    rw [if_neg (by rintro ⟨c1, c2⟩; rcases h with c | c; exact c1 c; exact c2 c)]
    exact ⟨rfl, by rw [hw, hs]⟩
  · intro h
    rw [if_pos ⟨fun c => h (Or.inl c), fun c => h (Or.inr c)⟩]
    exact ⟨rfl, rfl⟩

/-- A failure of `get_video_frame` is returned by `write_video_frame` as -1. -/
theorem write_video_frame_capture_failed (r : ScreenRecorder) (w : World)
    (hg : (get_video_frame r w).1 < 0) : (write_video_frame r w).1 = -1 := by
  rw [write_video_frame_eq, if_pos hg]

/-- A rejected submission is returned by `write_video_frame` with the code of
`avcodec_send_frame` as it is. -/
theorem write_video_frame_send_rejected (r : ScreenRecorder) (w : World)
    (hg : ¬ (get_video_frame r w).1 < 0)
    (hsend : (get_video_frame r w).2.2.next .avcodec_send_frame < 0) :
    (write_video_frame r w).1 = (get_video_frame r w).2.2.next .avcodec_send_frame := by
  rw [write_video_frame_eq, if_neg hg, if_pos hsend]

/-- In every state but Finished a failed trailer write ends `stop_recorder`
at once: the state is Finished, the trailer call is the only call made and no
handle is released. -/
theorem stop_recorder_trailer_failed (r : ScreenRecorder) (w : World)
    (hs : r.recorder_state ≠ .STATE_FINISHED) (ht : w.next .av_write_trailer < 0) :
    stop_recorder r w =
      (FAILURE, { r with recorder_state := .STATE_FINISHED },
        w.after .av_write_trailer (.av_write_trailer r.fmtctx (w.next .av_write_trailer))) := by
  unfold stop_recorder
  simp only [World.call]
  rw [if_neg hs, if_pos ht]

/-- The guard of `stop_recorder` lets state Uninitialized through: the state
becomes Finished and the trailer write is called. -/
theorem stop_recorder_unguarded (r : ScreenRecorder) (w : World)
    (hs : r.recorder_state = .STATE_UNINITIALIZED) :
    (stop_recorder r w).1 ≠ .ERR_UNAVAILABLE ∧
    (stop_recorder r w).2.1.recorder_state = .STATE_FINISHED ∧
    ∃ evs, (stop_recorder r w).2.2.trace
      = w.trace ++ .av_write_trailer r.fmtctx (w.next .av_write_trailer) :: evs := by
  unfold stop_recorder
  simp only [World.call, hs]
  rw [if_neg (by decide)]
  split_ifs
  · exact ⟨by simp [FAILURE], rfl, [], rfl⟩
  · exact ⟨by simp [SUCCESS], rfl, _, by simp [trace_after, trace_log]; rfl⟩
  · exact ⟨by simp [SUCCESS], rfl, _, by simp [trace_after, trace_log]; rfl⟩

theorem alloc_frame_checked {w v : World} (h : adds checked_ok w v) :
    adds checked_ok w (alloc_frame v).2 := by
  unfold alloc_frame
  simp only [World.call]
  split_ifs
  · exact adds_after h _ _ (by rfl)
  · exact adds_after (adds_after h _ _ (by rfl)) _ _ (by rfl)
  · exact adds_after (adds_after h _ _ (by rfl)) _ _ (by rfl)

theorem set_options_checked {w : World} (d : Dictionary) (ks : List Variant) :
    ∀ v : World, adds checked_ok w v → adds checked_ok w (set_options d ks v) := by
  induction ks with
  | nil => intro v h; exact h
  | cons k ks ih =>
    intro v h
    rw [set_options]
    split_ifs
    · exact ih v h
    · exact ih v h
    · exact ih _ (adds_log h _ (by rfl))

theorem initialize_frames_outcome (r : ScreenRecorder) (w : World) :
    ((initialize_frames r w).1 = SUCCESS ∧
      (initialize_frames r w).2.1.recorder_state = .STATE_FINISHED) ∨
    ((initialize_frames r w).1 = FAILURE ∧
      (initialize_frames r w).2.1.recorder_state = r.recorder_state) := by
  rw [initialize_frames_eq]
  split_ifs
  · exact Or.inr ⟨rfl, rfl⟩
  · exact Or.inl ⟨rfl, rfl⟩

theorem initialize_codec_outcome (r : ScreenRecorder) (w : World) :
    ((initialize_codec r w).1 = SUCCESS ∧
      (initialize_codec r w).2.1.recorder_state = .STATE_FINISHED) ∨
    ((initialize_codec r w).1 = FAILURE ∧
      (initialize_codec r w).2.1.recorder_state = r.recorder_state) := by
  unfold initialize_codec
  simp only [World.call]
  split_ifs
  · exact Or.inr ⟨rfl, rfl⟩
  · exact Or.inr ⟨rfl, rfl⟩
  · exact Or.inr ⟨rfl, rfl⟩
  · exact Or.inr ⟨rfl, rfl⟩
  · exact initialize_frames_outcome _ _

/-- The two outcomes of `initialize`: SUCCESS with the state moved to Finished,
or FAILURE with the state as it was. -/
theorem initialize_outcome (r : ScreenRecorder) (w : World) :
    ((initialize_recorder r w).1 = SUCCESS ∧
      (initialize_recorder r w).2.1.recorder_state = .STATE_FINISHED) ∨
    ((initialize_recorder r w).1 = FAILURE ∧
      (initialize_recorder r w).2.1.recorder_state = r.recorder_state) := by
  rw [initialize_recorder_eq]
  split
  · exact Or.inr ⟨rfl, rfl⟩
  · split_ifs
    · exact Or.inr ⟨rfl, rfl⟩
    · exact initialize_codec_outcome _ _

theorem initialize_frames_checked (r : ScreenRecorder) {w v : World}
    (h : adds checked_ok w v) (hs : (initialize_frames r v).1 = SUCCESS) :
    adds checked_ok w (initialize_frames r v).2.2 := by
  rw [initialize_frames_eq] at hs ⊢
  split_ifs at hs ⊢ with h1
  · simp [FAILURE, SUCCESS] at hs
  · exact adds_log (adds_after (alloc_frame_checked (alloc_frame_checked h)) _ _
      (by simpa [checked_ok] using not_lt.mp h1)) _ (by rfl)

theorem initialize_codec_checked (r : ScreenRecorder) {w v : World}
    (h : adds checked_ok w v) (hs : (initialize_codec r v).1 = SUCCESS) :
    adds checked_ok w (initialize_codec r v).2.2 := by
  unfold initialize_codec at hs ⊢
  simp only [World.call] at hs ⊢
  split_ifs at hs ⊢ with h1 h2 h3 h4
  · simp [FAILURE, SUCCESS] at hs
  · simp [FAILURE, SUCCESS] at hs
  · simp [FAILURE, SUCCESS] at hs
  · simp [FAILURE, SUCCESS] at hs
  · exact initialize_frames_checked _
      (adds_after (adds_after (adds_after (adds_after (set_options_checked _ _ _ h) _ _
        (by simpa [checked_ok] using h1)) _ _ (by simpa [checked_ok] using h2)) _ _
        (by simpa [checked_ok] using h3)) _ _ (by simpa [checked_ok] using not_lt.mp h4)) hs

theorem initialize_format_checked (w : World) :
    adds checked_ok w (initialize_format w).2 := by
  unfold initialize_format
  simp only [World.alloc_output]
  split
  · exact adds_after_resolve (adds_log (adds_refl _ _) _ (by rfl)) _ (fun _ => rfl)
  · exact adds_after_resolve (adds_after_resolve (adds_log (adds_refl _ _) _ (by rfl)) _
      (fun _ => rfl)) _ (fun _ => rfl)

/-- When `initialize` returns SUCCESS, a container format with a video
codec was resolved and every call whose result the function tests went well:
encoder lookup, stream creation, context allocation, `avcodec_open2` and
`avcodec_parameters_from_context`.  The two frame allocations are not among
the tested calls. -/
theorem initialize_success_checked (r : ScreenRecorder) (w : World)
    (hs : (initialize_recorder r w).1 = SUCCESS) :
    (∃ f, (initialize_format w).1 = some f ∧ f.video_codec ≠ AV_CODEC_ID_NONE) ∧
    adds checked_ok w (initialize_recorder r w).2.2 := by
  rw [initialize_recorder_eq] at hs ⊢
  split at hs
  · simp [FAILURE, SUCCESS] at hs
  · rename_i f hf
    split_ifs at hs with h1
    · simp [FAILURE, SUCCESS] at hs
    · simp only [hf, h1, if_false]
      exact ⟨⟨f, rfl, h1⟩, initialize_codec_checked _ (initialize_format_checked w) hs⟩

/-- Whatever the state before and whatever the calls return, `stop_recorder`
leaves the state Finished. -/
theorem stop_recorder_state (r : ScreenRecorder) (w : World) :
    (stop_recorder r w).2.1.recorder_state = .STATE_FINISHED := by
  unfold stop_recorder
  simp only [World.call]
  split_ifs with h1
  · exact h1
  · rfl
  · rfl
  · rfl

/-- In state Finished `stop_recorder` and `recorder_step` are rejected with
ERR_UNAVAILABLE and change nothing. -/
theorem finished_rejects_stop_and_step (r : ScreenRecorder) (w : World)
    (hs : r.recorder_state = .STATE_FINISHED) :
    stop_recorder r w = (.ERR_UNAVAILABLE, r, w) ∧
    recorder_step r w = (.ERR_UNAVAILABLE, r, w) := by
  constructor
  · unfold stop_recorder
    rw [if_pos hs]
  · rw [recorder_step_eq, if_pos (by rw [hs]; decide)]

/-- In state Finished `start_recorder` is not rejected: it makes its first
external call on the container context the recorder holds, whatever the state
of that context. -/
theorem finished_accepts_start (r : ScreenRecorder) (w : World)
    (hs : r.recorder_state = .STATE_FINISHED) :
    (start_recorder r w).1 ≠ .ERR_ALREADY_IN_USE ∧
    ∃ ret evs,
      ((start_recorder r w).2.2.trace = w.trace ++ Call.avio_open r.fmtctx ret :: evs ∨
       (start_recorder r w).2.2.trace
        = w.trace ++ Call.avformat_write_header r.fmtctx ret :: evs) := by
  unfold start_recorder
  simp only [World.call, hs, ne_eq, not_true_eq_false, if_false]
  cases hf : fmt_has_flag r.fmt AVFMT_NOFILE
  · simp only [Bool.not_false, if_true]
    split_ifs
    · exact ⟨by simp [FAILURE], _, [], Or.inl rfl⟩
    · exact ⟨by simp [FAILURE], _, _, Or.inl (by simp [trace_after]; exact ⟨rfl, rfl⟩)⟩
    · exact ⟨by simp [SUCCESS], _, _, Or.inl (by simp [trace_after]; exact ⟨rfl, rfl⟩)⟩
  · simp only [Bool.not_true, Bool.false_eq_true, if_false]
    rw [if_neg (by decide)]
    split_ifs
    · exact ⟨by simp [FAILURE], _, [], Or.inr rfl⟩
    · exact ⟨by simp [SUCCESS], _, [], Or.inr rfl⟩

/-! ## Main results -/

/-- C1, evaluated where the code departs from it: on a started recorder a step
whose `avcodec_send_frame` is rejected with `AVERROR(EAGAIN)` returns SUCCESS
and leaves the state Started, and so does a step whose muxer write fails with
`AVERROR(EAGAIN)`; in both the failed call is the last one of the step. -/
theorem recorder_step_rejected_submission_reports_success :
    (started world_send_eagain).1.recorder_state = .STATE_STARTED ∧
    (recorder_step (started world_send_eagain).1 (started world_send_eagain).2).1 = SUCCESS ∧
    (recorder_step (started world_send_eagain).1
      (started world_send_eagain).2).2.1.recorder_state = .STATE_STARTED ∧
    (recorder_step (started world_send_eagain).1
      (started world_send_eagain).2).2.2.trace.getLast?
        = some (.avcodec_send_frame .live 0 (-11)) ∧
    (recorder_step (started world_write_eagain).1 (started world_write_eagain).2).1 = SUCCESS ∧
    (recorder_step (started world_write_eagain).1
      (started world_write_eagain).2).2.1.recorder_state = .STATE_STARTED ∧
    (recorder_step (started world_write_eagain).1
      (started world_write_eagain).2).2.2.trace.getLast?
        = some (.av_interleaved_write_frame (-11)) := by
  decide

/-- C2, evaluated where the code departs from it: after an `initialize` that
failed at the encoder lookup the state is Uninitialized, and `stop_recorder`
is not rejected: it returns SUCCESS, moves the state to Finished, writes the
trailer and runs every release call. -/
theorem stop_recorder_runs_from_uninitialized :
    (initialize_recorder {} world_no_encoder).1 = FAILURE ∧
    (initialize_recorder {} world_no_encoder).2.1.recorder_state = .STATE_UNINITIALIZED ∧
    (stop_recorder (initialize_recorder {} world_no_encoder).2.1
      (initialize_recorder {} world_no_encoder).2.2).1 = SUCCESS ∧
    is_state_error (stop_recorder (initialize_recorder {} world_no_encoder).2.1
      (initialize_recorder {} world_no_encoder).2.2).1 = false ∧
    (stop_recorder (initialize_recorder {} world_no_encoder).2.1
      (initialize_recorder {} world_no_encoder).2.2).2.1.recorder_state = .STATE_FINISHED ∧
    (stop_recorder (initialize_recorder {} world_no_encoder).2.1
      (initialize_recorder {} world_no_encoder).2.2).2.2.trace
      = (initialize_recorder {} world_no_encoder).2.2.trace ++
        [.av_write_trailer .live 0, .avcodec_free_context .null,
         .av_frame_free .frame .null, .av_frame_free .tmp_frame .null,
         .sws_freeContext .null, .avio_closep .live, .avformat_free_context .live] := by
  decide

/-- C3, evaluated where the code departs from it: on a started recorder whose
trailer write fails, `stop_recorder` returns FAILURE straight after the
trailer call: no release call is made and the four owned handles stay live,
while the state is already Finished, so a second `stop_recorder` is rejected
and releases nothing either.  When the trailer write goes well the six
release calls follow it in order. -/
theorem stop_recorder_trailer_failure_skips_release :
    (started world_trailer_fails).1.recorder_state = .STATE_STARTED ∧
    (stop_recorder (started world_trailer_fails).1 (started world_trailer_fails).2).1
      = FAILURE ∧
    (stop_recorder (started world_trailer_fails).1 (started world_trailer_fails).2).2.2.trace
      = (started world_trailer_fails).2.trace ++ [.av_write_trailer .live (-1)] ∧
    (stop_recorder (started world_trailer_fails).1
      (started world_trailer_fails).2).2.1.codecctx = .live ∧
    (stop_recorder (started world_trailer_fails).1
      (started world_trailer_fails).2).2.1.frame = .live ∧
    (stop_recorder (started world_trailer_fails).1
      (started world_trailer_fails).2).2.1.tmp_frame = .live ∧
    (stop_recorder (started world_trailer_fails).1
      (started world_trailer_fails).2).2.1.fmtctx = .live ∧
    (stop_recorder (started world_trailer_fails).1
      (started world_trailer_fails).2).2.1.recorder_state = .STATE_FINISHED ∧
    (stop_recorder
      (stop_recorder (started world_trailer_fails).1 (started world_trailer_fails).2).2.1
      (stop_recorder (started world_trailer_fails).1 (started world_trailer_fails).2).2.2).1
      = .ERR_UNAVAILABLE ∧
    (stop_recorder
      (stop_recorder (started world_trailer_fails).1 (started world_trailer_fails).2).2.1
      (stop_recorder (started world_trailer_fails).1
        (started world_trailer_fails).2).2.2).2.2.trace
      = (started world_trailer_fails).2.trace ++ [.av_write_trailer .live (-1)] ∧
    (stop_recorder (started {}).1 (started {}).2).2.2.trace
      = (started {}).2.trace ++
        [.av_write_trailer .live 0, .avcodec_free_context .live,
         .av_frame_free .frame .live, .av_frame_free .tmp_frame .live,
         .sws_freeContext .null, .avio_closep .live, .avformat_free_context .live] := by
  decide

/-- C4: in every state other than Finished (Uninitialized, Started, Error)
`start_recorder` returns the state-error code ERR_ALREADY_IN_USE, which is not
SUCCESS, and gives back the recorder and the world as they were: the state is
unchanged and no call (sink open, header write) is recorded. -/
theorem start_recorder_rejected_outside_finished (r : ScreenRecorder) (w : World)
    (h : r.recorder_state = .STATE_UNINITIALIZED ∨ r.recorder_state = .STATE_STARTED ∨
      r.recorder_state = .STATE_ERROR) :
    (start_recorder r w).1 = .ERR_ALREADY_IN_USE ∧
    is_state_error (start_recorder r w).1 = true ∧
    (start_recorder r w).1 ≠ SUCCESS ∧
    (start_recorder r w).2.1 = r ∧
    (start_recorder r w).2.1.recorder_state = r.recorder_state ∧
    (start_recorder r w).2.2 = w ∧
    (start_recorder r w).2.2.trace = w.trace := by
  have hne : r.recorder_state ≠ .STATE_FINISHED := by
    rcases h with h | h | h <;> rw [h] <;> decide
  simp [start_recorder, hne, is_state_error, SUCCESS]

/-- Witness of C4: a second `start_recorder` on a started recorder. -/
theorem start_recorder_rejected_outside_finished_witness :
    ((started {}).1.recorder_state = .STATE_UNINITIALIZED ∨
      (started {}).1.recorder_state = .STATE_STARTED ∨
      (started {}).1.recorder_state = .STATE_ERROR) ∧
    (start_recorder (started {}).1 (started {}).2).1 = .ERR_ALREADY_IN_USE ∧
    (start_recorder (started {}).1 (started {}).2).2.1.recorder_state = .STATE_STARTED :=
  have h : (started {}).1.recorder_state = .STATE_UNINITIALIZED ∨
      (started {}).1.recorder_state = .STATE_STARTED ∨
      (started {}).1.recorder_state = .STATE_ERROR := by decide
  ⟨h, (start_recorder_rejected_outside_finished _ _ h).1,
    (start_recorder_rejected_outside_finished _ _ h).2.2.2.2.1.trans (by decide)⟩

/-- C5: in every state other than Started (Uninitialized, Finished, Error)
`recorder_step` returns the state-error code ERR_UNAVAILABLE and gives back
the recorder and the world as they were: no call is recorded (no capture, no
encoder submission, no muxer write) and the state, `next_pts` and
`received_frame_count` are unchanged. -/
theorem recorder_step_rejected_outside_started (r : ScreenRecorder) (w : World)
    (h : r.recorder_state = .STATE_UNINITIALIZED ∨ r.recorder_state = .STATE_FINISHED ∨
      r.recorder_state = .STATE_ERROR) :
    (recorder_step r w).1 = .ERR_UNAVAILABLE ∧
    is_state_error (recorder_step r w).1 = true ∧
    (recorder_step r w).2.2 = w ∧
    (recorder_step r w).2.2.trace = w.trace ∧
    (recorder_step r w).2.1 = r ∧
    (recorder_step r w).2.1.recorder_state = r.recorder_state ∧
    (recorder_step r w).2.1.next_pts = r.next_pts ∧
    (recorder_step r w).2.1.received_frame_count = r.received_frame_count := by
  have hne : r.recorder_state ≠ .STATE_STARTED := by
    rcases h with h | h | h <;> rw [h] <;> decide
  simp [recorder_step, hne, is_state_error]

/-- Witness of C5: `recorder_step` on an initialized recorder that was never
started. -/
theorem recorder_step_rejected_outside_started_witness :
    ((initialize_recorder {} {}).2.1.recorder_state = .STATE_UNINITIALIZED ∨
      (initialize_recorder {} {}).2.1.recorder_state = .STATE_FINISHED ∨
      (initialize_recorder {} {}).2.1.recorder_state = .STATE_ERROR) ∧
    (recorder_step (initialize_recorder {} {}).2.1 (initialize_recorder {} {}).2.2).1
      = .ERR_UNAVAILABLE ∧
    (recorder_step (initialize_recorder {} {}).2.1 (initialize_recorder {} {}).2.2).2.2.trace
      = (initialize_recorder {} {}).2.2.trace :=
  have h : (initialize_recorder {} {}).2.1.recorder_state = .STATE_UNINITIALIZED ∨
      (initialize_recorder {} {}).2.1.recorder_state = .STATE_FINISHED ∨
      (initialize_recorder {} {}).2.1.recorder_state = .STATE_ERROR := by decide
  ⟨h, (recorder_step_rejected_outside_started _ _ h).1,
    (recorder_step_rejected_outside_started _ _ h).2.2.2.1⟩

/-- C8, evaluated where the code departs from it: after `push_frame` of image
1 and then image 2 with no dequeue in between, the first dequeue of
`prepare_frame` returns image 2 and the next one image 1: the buffer is
emptied last in, first out. -/
theorem frame_buffer_dequeues_newest_first :
    (prepare_frame_threaded (push_frame (push_frame {} 1) 2)).1 = some 2 ∧
    (prepare_frame_threaded
      (prepare_frame_threaded (push_frame (push_frame {} 1) 2)).2).1 = some 1 := by
  decide

theorem round_trip_eq (w : World) (n : Nat) :
    round_trip w n =
      ((stop_recorder (steps n (started w).1 (started w).2).1
          (steps n (started w).1 (started w).2).2).2.1,
       (stop_recorder (steps n (started w).1 (started w).2).1
          (steps n (started w).1 (started w).2).2).2.2) := rfl

/-- C6: on a recorder taken through `initialize` and `start_recorder` from a
new instance, after any number `n` of `recorder_step` calls and whatever the
external calls return, the timestamps handed to `avcodec_send_frame` are, in
call order, 0, 1, ..., m-1 (the k-th submitted frame carries timestamp k), and
`next_pts` is m, the number of submissions: a step that does not submit
consumes no timestamp. -/
theorem submitted_timestamps_count_from_zero (ofs : List (Option AVOutputFormat))
    (sc : Ext → List Int) (n : Nat) :
    ∃ m : Nat,
      sent_pts (steps n (started ⟨ofs, sc, []⟩).1 (started ⟨ofs, sc, []⟩).2).2.trace
        = (List.range m).map Int.ofNat ∧
      (steps n (started ⟨ofs, sc, []⟩).1 (started ⟨ofs, sc, []⟩).2).1.next_pts = m ∧
      (sent_pts (steps n (started ⟨ofs, sc, []⟩).1 (started ⟨ofs, sc, []⟩).2).2.trace).length
        = m := by
  obtain ⟨f1, _, _, _, f5, _⟩ := started_fresh ofs sc
  obtain ⟨m, h1, h2⟩ := steps_keep
    (fun r w => ∃ m : Nat, sent_pts w.trace = (List.range m).map Int.ofNat ∧ r.next_pts = m)
    step_effect_pts n _ _ ⟨0, by rw [f1]; rfl, by rw [f5]; rfl⟩
  exact ⟨m, h1, h2, by rw [h1]; simp⟩

/-- C7 as stated fails: when the encoder emits one packet and the muxer write
of it fails, `get_received_frame_count` is 1 although no packet was written
to the muxer. -/
theorem received_frame_count_counts_failed_write :
    get_received_frame_count
      (steps 1 (started world_write_fails).1 (started world_write_fails).2).1 = 1 ∧
    written_packets (steps 1 (started world_write_fails).1
      (started world_write_fails).2).2.trace = 0 ∧
    failed_writes (steps 1 (started world_write_fails).1
      (started world_write_fails).2).2.trace = 1 ∧
    get_received_frame_count
      (steps 1 (started world_write_fails).1 (started world_write_fails).2).1
      ≠ (written_packets (steps 1 (started world_write_fails).1
          (started world_write_fails).2).2.trace : Int) := by
  decide

/-- C7, amended: on a recorder taken through `initialize` and `start_recorder`
from a new instance, after any number of `recorder_step` calls and whatever
the external calls return, `get_received_frame_count` is the number of packets
the encoder emitted, each counted once, and every emitted packet was handed to
the muxer once: the count is the number of muxer writes that went well plus
the number that failed. -/
theorem received_frame_count_counts_emitted (ofs : List (Option AVOutputFormat))
    (sc : Ext → List Int) (n : Nat) :
    get_received_frame_count (steps n (started ⟨ofs, sc, []⟩).1 (started ⟨ofs, sc, []⟩).2).1
      = emitted_packets (steps n (started ⟨ofs, sc, []⟩).1 (started ⟨ofs, sc, []⟩).2).2.trace ∧
    emitted_packets (steps n (started ⟨ofs, sc, []⟩).1 (started ⟨ofs, sc, []⟩).2).2.trace
      = written_packets (steps n (started ⟨ofs, sc, []⟩).1 (started ⟨ofs, sc, []⟩).2).2.trace
        + failed_writes (steps n (started ⟨ofs, sc, []⟩).1 (started ⟨ofs, sc, []⟩).2).2.trace := by
  obtain ⟨_, f2, f3, f4, _, f6⟩ := started_fresh ofs sc
  exact steps_keep
    (fun r w => r.received_frame_count = emitted_packets w.trace ∧
      emitted_packets w.trace = written_packets w.trace + failed_writes w.trace)
    step_effect_count n _ _ ⟨by rw [f6, f2]; rfl, by rw [f2, f3, f4]⟩

/-- C9: against stubs that never fail, `initialize`, `start_recorder`, `n`
steps and `stop_recorder` on a new instance leave a trace whose header
writes, encoder submissions and trailer writes are, in call order: one header
write, then the submissions with timestamps `pts`, then one trailer write,
where `pts` has at most `n` entries and is strictly increasing (it is
0, 1, ..., n-1). -/
theorem round_trip_trace (ofs : List (Option AVOutputFormat)) (sc : Ext → List Int)
    (h : never_fails ⟨ofs, sc, []⟩) (n : Nat) :
    ∃ pts : List Int,
      lifecycle_marks (round_trip ⟨ofs, sc, []⟩ n).2.trace
        = [Mark.header] ++ pts.map Mark.submission ++ [Mark.trailer] ∧
      pts.length ≤ n ∧
      pts.Pairwise (· < ·) ∧
      pts = (List.range n).map Int.ofNat := by
  obtain ⟨_, i2, _, _⟩ := initialize_ok {} h
  have a1 := initialize_adds {} ⟨ofs, sc, []⟩
  have n1 := never_fails_of_adds h a1
  obtain ⟨e1, t1, k1, _, _⟩ := a1
  obtain ⟨_, m1, _, _, _⟩ := setup_calls_silent e1 k1
  obtain ⟨_, s2, s3⟩ := start_recorder_ok (initialize_recorder {} ⟨ofs, sc, []⟩).2.1 n1 i2
  have n2 := never_fails_of_adds n1 (start_recorder_adds
    (initialize_recorder {} ⟨ofs, sc, []⟩).2.1 (initialize_recorder {} ⟨ofs, sc, []⟩).2.2)
  obtain ⟨_, _, _, _, f5, _⟩ := started_fresh ofs sc
  rw [started_eq] at f5
  obtain ⟨p1, p2, p3⟩ := steps_ok n _ _ n2 s2
  obtain ⟨_, _, q3⟩ := stop_recorder_ok _ p3 p1
  refine ⟨(List.range n).map Int.ofNat, ?_, by simp, ?_, rfl⟩
  · rw [round_trip_eq, started_eq, q3, p2, s3, t1, f5]
    simp only [List.nil_append, m1, List.map_map, zero_add]
    rfl
  · exact (List.pairwise_lt_range n).map Int.ofNat (fun a b hab => Int.ofNat_lt.mpr hab)

/-- Witness of C9: a round trip of two steps in which the encoder emits one
packet. -/
theorem round_trip_trace_witness :
    never_fails ⟨[], world_one_packet.script, []⟩ ∧
    ∃ pts : List Int,
      lifecycle_marks (round_trip ⟨[], world_one_packet.script, []⟩ 2).2.trace
        = [Mark.header] ++ pts.map Mark.submission ++ [Mark.trailer] ∧
      pts.length ≤ 2 ∧
      pts.Pairwise (· < ·) ∧
      pts = (List.range 2).map Int.ofNat :=
  have hnf : never_fails ⟨[], world_one_packet.script, []⟩ :=
    ⟨fun fn x hx => by
        cases fn <;> simp [world_one_packet] at hx
        rcases hx with hx | hx <;> rw [hx] <;> decide,
      fun o ho => absurd ho (List.not_mem_nil o)⟩
  ⟨hnf, round_trip_trace [] world_one_packet.script hnf 2⟩

/-- C10: when `initialize` resolves a container format that has a video codec
(so that it gets to the options loop), the option entries it hands to
`av_dict_set` are exactly the entries of the options dictionary whose key and
value are both strings, each with key and value unchanged, in the order of the
keys; every other entry is skipped, and skipping one is no failure. -/
theorem initialize_forwards_string_entries (r : ScreenRecorder) (w : World)
    (hd : (Dictionary.keys r.options).Nodup)
    (hf : ∃ f, (initialize_format w).1 = some f ∧ f.video_codec ≠ AV_CODEC_ID_NONE) :
    forwarded_options (initialize_recorder r w).2.2.trace
      = forwarded_options w.trace ++ string_entries r.options := by
  obtain ⟨f, hf1, hf2⟩ := hf
  rw [initialize_recorder_eq]
  simp only [hf1, hf2, if_false]
  rw [initialize_codec_forwards, initialize_format_forwards]
  exact congrArg _ (keys_lookup_eq_entries r.options hd)

/-- Witness of C10: for `{"preset": "fast", "threads": 4}` only `preset=fast`
is forwarded, and `initialize` succeeds. -/
theorem initialize_forwards_string_entries_witness :
    (Dictionary.keys options_preset_threads).Nodup ∧
    (∃ f, (initialize_format {}).1 = some f ∧ f.video_codec ≠ AV_CODEC_ID_NONE) ∧
    forwarded_options (initialize_recorder { options := options_preset_threads } {}).2.2.trace
      = [("preset", "fast")] ∧
    (initialize_recorder { options := options_preset_threads } {}).1 = SUCCESS :=
  have hd : (Dictionary.keys options_preset_threads).Nodup := by decide
  have hf : ∃ f, (initialize_format {}).1 = some f ∧ f.video_codec ≠ AV_CODEC_ID_NONE :=
    ⟨default_oformat, rfl, by decide⟩
  ⟨hd, hf,
    (initialize_forwards_string_entries { options := options_preset_threads } {} hd hf).trans
      (by decide),
    by decide⟩

/-- C11, evaluated where the code departs from it: when `av_frame_alloc`
returns null for the first frame buffer, or `av_frame_get_buffer` fails for
the second one, `initialize` on a new instance still returns SUCCESS and moves
the state to Finished, with that frame buffer null. -/
theorem initialize_succeeds_without_frame_buffer :
    (initialize_recorder {} world_frame_alloc_fails).1 = SUCCESS ∧
    (initialize_recorder {} world_frame_alloc_fails).2.1.recorder_state = .STATE_FINISHED ∧
    (initialize_recorder {} world_frame_alloc_fails).2.1.tmp_frame = .null ∧
    Call.av_frame_alloc 0 ∈ (initialize_recorder {} world_frame_alloc_fails).2.2.trace ∧
    (initialize_recorder {} world_frame_buffer_fails).1 = SUCCESS ∧
    (initialize_recorder {} world_frame_buffer_fails).2.1.recorder_state = .STATE_FINISHED ∧
    (initialize_recorder {} world_frame_buffer_fails).2.1.frame = .null ∧
    Call.av_frame_get_buffer (-1) ∈ (initialize_recorder {} world_frame_buffer_fails).2.2.trace := by
  decide

/-- C12, evaluated where the code departs from it: on a new instance taken
through `initialize`, `start_recorder` and `stop_recorder`, the state is
Finished and the container context is freed, and a further `start_recorder` is
not rejected: it returns SUCCESS, moves to Started and opens the sink and
writes the header on the freed container context.  A `recorder_step` after it
is not rejected either and works on the released frame buffer and encoder
context, and a second `stop_recorder` succeeds and frees the container context
again. -/
theorem start_recorder_accepted_after_stop :
    (stopped {}).1.recorder_state = .STATE_FINISHED ∧
    (stopped {}).1.fmtctx = .freed ∧
    (stopped {}).1.frame = .null ∧
    (stopped {}).1.codecctx = .null ∧
    (start_recorder (stopped {}).1 (stopped {}).2).1 = SUCCESS ∧
    is_state_error (start_recorder (stopped {}).1 (stopped {}).2).1 = false ∧
    (start_recorder (stopped {}).1 (stopped {}).2).2.1.recorder_state = .STATE_STARTED ∧
    (start_recorder (stopped {}).1 (stopped {}).2).2.2.trace
      = (stopped {}).2.trace ++ [.avio_open .freed 0, .avformat_write_header .freed 0] ∧
    (recorder_step (start_recorder (stopped {}).1 (stopped {}).2).2.1
      (start_recorder (stopped {}).1 (stopped {}).2).2.2).1 = SUCCESS ∧
    (recorder_step (start_recorder (stopped {}).1 (stopped {}).2).2.1
      (start_recorder (stopped {}).1 (stopped {}).2).2.2).2.2.trace
      = (start_recorder (stopped {}).1 (stopped {}).2).2.2.trace ++
        [.av_frame_make_writable .null 0, .sws_getContext 1, .get_data, .sws_scale,
         .avcodec_send_frame .null 0 0, .avcodec_receive_packet (-11)] ∧
    (stop_recorder (start_recorder (stopped {}).1 (stopped {}).2).2.1
      (start_recorder (stopped {}).1 (stopped {}).2).2.2).1 = SUCCESS ∧
    (stop_recorder (start_recorder (stopped {}).1 (stopped {}).2).2.1
      (start_recorder (stopped {}).1 (stopped {}).2).2.2).2.2.trace
      = (start_recorder (stopped {}).1 (stopped {}).2).2.2.trace ++
        [.av_write_trailer .freed 0, .avcodec_free_context .null,
         .av_frame_free .frame .null, .av_frame_free .tmp_frame .null,
         .sws_freeContext .null, .avio_closep .freed, .avformat_free_context .freed] := by
  decide

end ScreenRecorder
